import Mathlib

/-!
# vitaGL: uniform circular pool (`source/utils/gxm_utils.c`) and matrix utilities
(`source/utils/math_utils.c`)

A shallow embedding of the uniform circular pool, of the per-stage
default-uniform-buffer binders and of the matrix and vector functions.

Conventions of the embedding.

* `uint32_t` values are natural numbers; every place where the C code computes
  in 32 bits reduces modulo `2 ^ 32` explicitly.  A `uint32_t` argument is a
  natural number `< 2 ^ 32`.
* Addresses (`void *`, `uint8_t *`) are the 4-byte pointers of the target, the
  PlayStation Vita: natural numbers `< 2 ^ 32`, with `NULL` being `0`; the pointer
  sum `unif_pool + unif_idx` is the sum modulo `2 ^ 32`.  A pool of
  `UNIFORM_CIRCULAR_POOL_SIZE` bytes at `base` lies in the address space when
  `base + UNIFORM_CIRCULAR_POOL_SIZE ≤ 2 ^ 32`.
* The file-scope statics `frag_buf`, `vert_buf`, `unif_pool`, `unif_idx`, the
  function-scope static `last_frame_swap` and the external global
  `vgl_debugger_framecount` are the fields of `State`.
* Calls that leave the module (`vgl_log`, `sceGxmSet*DefaultUniformBuffer`) are
  recorded as a list of `Event`s, in program order.  The first argument
  `gxm_context` of the bind calls is a fixed handle and is not recorded.
* The embedding is the build without `SKIP_ERROR_HANDLING`; the one function that
  the flag changes has a second embedding, named with the flag.
* In `math_utils.c` a `float` is a rational number and every operation is exact;
  an array parameter that a function writes is an argument (its content before
  the call) and a result (its content after the call), and is a different array
  from the ones the function reads.
-/

namespace VitaGL

/-- The macro `UNIFORM_CIRCULAR_POOL_SIZE`, `2 * 1024 * 1024` bytes. -/
def UNIFORM_CIRCULAR_POOL_SIZE : Nat := 2 * 1024 * 1024

/-- Calls made to collaborators outside the module. -/
inductive Event where
  | vgl_log : Event
  | sceGxmSetFragmentDefaultUniformBuffer (buf : Nat) : Event
  | sceGxmSetVertexDefaultUniformBuffer (buf : Nat) : Event
  deriving DecidableEq, Repr

/-- The mutable variables read or written by `gxm_utils.c`. -/
structure State where
  frag_buf : Nat
  vert_buf : Nat
  unif_pool : Nat
  unif_idx : Nat
  last_frame_swap : Nat
  vgl_debugger_framecount : Nat
  deriving DecidableEq, Repr

/-- The values of the statics at program start (`NULL`, `NULL`, `NULL`, `0`, `0`);
the frame counter is owned by another module and is a parameter. -/
def initialState (framecount : Nat) : State :=
  { frag_buf := 0, vert_buf := 0, unif_pool := 0, unif_idx := 0,
    last_frame_swap := 0, vgl_debugger_framecount := framecount }

/-- The function `vglSetupUniformCircularPool`; `gpu_alloc_mapped` is the address
returned by the allocator for the `UNIFORM_CIRCULAR_POOL_SIZE` bytes. -/
def vglSetupUniformCircularPool (s : State) (gpu_alloc_mapped : Nat) : State :=
  { s with unif_pool := gpu_alloc_mapped }

/-- The function `vglReserveUniformCircularPoolBuffer`: returned pointer, new
state, emitted events. -/
def vglReserveUniformCircularPoolBuffer (s : State) (size : Nat) :
    Nat × State × List Event :=
  if (s.unif_idx + size) % 2 ^ 32 ≥ UNIFORM_CIRCULAR_POOL_SIZE then
    (s.unif_pool,
     { s with last_frame_swap := s.vgl_debugger_framecount, unif_idx := size },
     if s.last_frame_swap = s.vgl_debugger_framecount then [Event.vgl_log] else [])
  else
    ((s.unif_pool + s.unif_idx) % 2 ^ 32,
     { s with unif_idx := (s.unif_idx + size) % 2 ^ 32 },
     [])

/-- The test of line 38: the call takes the wrap branch. -/
def takesWrapBranch (s : State) (size : Nat) : Prop :=
  (s.unif_idx + size) % 2 ^ 32 ≥ UNIFORM_CIRCULAR_POOL_SIZE

instance (s : State) (size : Nat) : Decidable (takesWrapBranch s size) := by
  unfold takesWrapBranch; infer_instance

/-- The function `vglRestoreFragmentUniformBuffer`. -/
def vglRestoreFragmentUniformBuffer (s : State) : State × List Event :=
  if s.frag_buf ≠ 0 then
    (s, [Event.sceGxmSetFragmentDefaultUniformBuffer s.frag_buf])
  else
    (s, [])

/-- The function `vglRestoreVertexUniformBuffer`. -/
def vglRestoreVertexUniformBuffer (s : State) : State × List Event :=
  if s.vert_buf ≠ 0 then
    (s, [Event.sceGxmSetVertexDefaultUniformBuffer s.vert_buf])
  else
    (s, [])

/-- Result of a stage reservation: the returned size, the new state, the emitted
events and the content of the caller's cell `*uniformBuffer` after the call. -/
structure StageResult where
  ret : Nat
  state : State
  events : List Event
  uniformBuffer : Nat
  deriving DecidableEq, Repr

/-- The function `vglReserveFragmentUniformBuffer`.  The collaborator
`sceGxmProgramGetDefaultUniformBufferSize` is a parameter; `uniformBuffer` is the
content of the caller's cell before the call. -/
def vglReserveFragmentUniformBuffer {SceGxmProgram : Type}
    (sceGxmProgramGetDefaultUniformBufferSize : SceGxmProgram → Nat)
    (s : State) (p : SceGxmProgram) (uniformBuffer : Nat) : StageResult :=
  let size := sceGxmProgramGetDefaultUniformBufferSize p
  if size ≠ 0 then
    let r := vglReserveUniformCircularPoolBuffer s size
    let s1 : State := { r.2.1 with frag_buf := r.1 }
    { ret := size, state := s1,
      events := r.2.2 ++ [Event.sceGxmSetFragmentDefaultUniformBuffer s1.frag_buf],
      uniformBuffer := s1.frag_buf }
  else
    { ret := size, state := s, events := [], uniformBuffer := uniformBuffer }

/-- The function `vglReserveVertexUniformBuffer`, with the same conventions. -/
def vglReserveVertexUniformBuffer {SceGxmProgram : Type}
    (sceGxmProgramGetDefaultUniformBufferSize : SceGxmProgram → Nat)
    (s : State) (p : SceGxmProgram) (uniformBuffer : Nat) : StageResult :=
  let size := sceGxmProgramGetDefaultUniformBufferSize p
  if size ≠ 0 then
    let r := vglReserveUniformCircularPoolBuffer s size
    let s1 : State := { r.2.1 with vert_buf := r.1 }
    { ret := size, state := s1,
      events := r.2.2 ++ [Event.sceGxmSetVertexDefaultUniformBuffer s1.vert_buf],
      uniformBuffer := s1.vert_buf }
  else
    { ret := size, state := s, events := [], uniformBuffer := uniformBuffer }

/-- A sequence of `vglReserveUniformCircularPoolBuffer` calls, in order. -/
def reserveAll (s : State) : List Nat → State
  | [] => s
  | size :: rest => reserveAll (vglReserveUniformCircularPoolBuffer s size).2.1 rest

/-- The state reached from program start by `vglSetupUniformCircularPool`
(allocator result `base`) followed by the reservations `sizes`. -/
def poolAfter (base framecount : Nat) (sizes : List Nat) : State :=
  reserveAll (vglSetupUniformCircularPool (initialState framecount) base) sizes

/-- An operation of a pool run in which the frame counter moves. -/
inductive PoolOp where
  | reserve (size : Nat) : PoolOp
  | frame (framecount : Nat) : PoolOp
  deriving DecidableEq, Repr

/-- One operation: a reservation, or another module storing a new value in
`vgl_debugger_framecount`. -/
def poolStep (s : State) : PoolOp → State × List Event
  | PoolOp.reserve size =>
      ((vglReserveUniformCircularPoolBuffer s size).2.1,
       (vglReserveUniformCircularPoolBuffer s size).2.2)
  | PoolOp.frame framecount => ({ s with vgl_debugger_framecount := framecount }, [])

/-- Runs the operations in order; returns the final state and, per operation, the
events it emitted. -/
def poolRun (s : State) : List PoolOp → State × List (List Event)
  | [] => (s, [])
  | op :: rest =>
      ((poolRun (poolStep s op).1 rest).1,
       (poolStep s op).2 :: (poolRun (poolStep s op).1 rest).2)

/-- No call of the sequence `sizes`, started in `s`, takes the wrap branch. -/
def noWrap (s : State) : List Nat → Prop
  | [] => True
  | size :: rest =>
      ¬ takesWrapBranch s size ∧ noWrap (vglReserveUniformCircularPoolBuffer s size).2.1 rest

/-- The store of a new value in `vgl_debugger_framecount` by its owner. -/
def setFramecount (s : State) (framecount : Nat) : State :=
  (poolStep s (PoolOp.frame framecount)).1

/-- An operation of the module, for runs that mix the pool, the frame counter and
both stages.  `reserveFragment p uniformBuffer` is the call
`vglReserveFragmentUniformBuffer(p, &cell)` with `uniformBuffer` the content of the
caller's cell before the call. -/
inductive Op (SceGxmProgram : Type) where
  | reservePool (size : Nat) : Op SceGxmProgram
  | frame (framecount : Nat) : Op SceGxmProgram
  | restoreFragment : Op SceGxmProgram
  | restoreVertex : Op SceGxmProgram
  | reserveFragment (p : SceGxmProgram) (uniformBuffer : Nat) : Op SceGxmProgram
  | reserveVertex (p : SceGxmProgram) (uniformBuffer : Nat) : Op SceGxmProgram

/-- One operation of the module: the new state and the events it emitted. -/
def step {SceGxmProgram : Type}
    (sceGxmProgramGetDefaultUniformBufferSize : SceGxmProgram → Nat)
    (s : State) : Op SceGxmProgram → State × List Event
  | Op.reservePool size =>
      ((vglReserveUniformCircularPoolBuffer s size).2.1,
       (vglReserveUniformCircularPoolBuffer s size).2.2)
  | Op.frame framecount => (setFramecount s framecount, [])
  | Op.restoreFragment => vglRestoreFragmentUniformBuffer s
  | Op.restoreVertex => vglRestoreVertexUniformBuffer s
  | Op.reserveFragment p uniformBuffer =>
      ((vglReserveFragmentUniformBuffer sceGxmProgramGetDefaultUniformBufferSize s p
          uniformBuffer).state,
       (vglReserveFragmentUniformBuffer sceGxmProgramGetDefaultUniformBufferSize s p
          uniformBuffer).events)
  | Op.reserveVertex p uniformBuffer =>
      ((vglReserveVertexUniformBuffer sceGxmProgramGetDefaultUniformBufferSize s p
          uniformBuffer).state,
       (vglReserveVertexUniformBuffer sceGxmProgramGetDefaultUniformBufferSize s p
          uniformBuffer).events)

/-- Runs the operations in order: the final state and all events, in order. -/
def run {SceGxmProgram : Type}
    (sceGxmProgramGetDefaultUniformBufferSize : SceGxmProgram → Nat)
    (s : State) : List (Op SceGxmProgram) → State × List Event
  | [] => (s, [])
  | op :: rest =>
      ((run sceGxmProgramGetDefaultUniformBufferSize
          (step sceGxmProgramGetDefaultUniformBufferSize s op).1 rest).1,
       (step sceGxmProgramGetDefaultUniformBufferSize s op).2
         ++ (run sceGxmProgramGetDefaultUniformBufferSize
              (step sceGxmProgramGetDefaultUniformBufferSize s op).1 rest).2)

/-- The size that an operation requests from the pool: the argument of a direct
pool call, the default uniform buffer size of the program for a stage reservation,
and `0` for the operations that make no pool call. -/
def requestedSize {SceGxmProgram : Type}
    (sceGxmProgramGetDefaultUniformBufferSize : SceGxmProgram → Nat) :
    Op SceGxmProgram → Nat
  | Op.reservePool size => size
  | Op.frame _ => 0
  | Op.restoreFragment => 0
  | Op.restoreVertex => 0
  | Op.reserveFragment p _ => sceGxmProgramGetDefaultUniformBufferSize p
  | Op.reserveVertex p _ => sceGxmProgramGetDefaultUniformBufferSize p

/-- No operation of the run, started in `s`, overflows the 32-bit sum of line 38: at
each operation the sum of the cursor and the requested size is below `2 ^ 32`. -/
def fitsIn32 {SceGxmProgram : Type}
    (sceGxmProgramGetDefaultUniformBufferSize : SceGxmProgram → Nat)
    (s : State) : List (Op SceGxmProgram) → Prop
  | [] => True
  | op :: rest =>
      s.unif_idx + requestedSize sceGxmProgramGetDefaultUniformBufferSize op < 2 ^ 32
      ∧ fitsIn32 sceGxmProgramGetDefaultUniformBufferSize
          (step sceGxmProgramGetDefaultUniformBufferSize s op).1 rest

/-- The function `vglReserveUniformCircularPoolBuffer` as compiled with
`SKIP_ERROR_HANDLING` defined: lines 40 to 44 are absent, so the latch is never
written and no diagnostic is emitted. -/
def vglReserveUniformCircularPoolBuffer_SKIP_ERROR_HANDLING (s : State) (size : Nat) :
    Nat × State × List Event :=
  if (s.unif_idx + size) % 2 ^ 32 ≥ UNIFORM_CIRCULAR_POOL_SIZE then
    (s.unif_pool, { s with unif_idx := size }, [])
  else
    ((s.unif_pool + s.unif_idx) % 2 ^ 32,
     { s with unif_idx := (s.unif_idx + size) % 2 ^ 32 }, [])

/-- A run of reservations in which the frame counter takes the given value before
each call: per call `(framecount, size)`, the pointer returned and the cursor
left. -/
def reserveTrace (s : State) : List (Nat × Nat) → List (Nat × Nat)
  | [] => []
  | call :: rest =>
      ((vglReserveUniformCircularPoolBuffer (setFramecount s call.1) call.2).1,
       (vglReserveUniformCircularPoolBuffer (setFramecount s call.1) call.2).2.1.unif_idx)
      :: reserveTrace
          (vglReserveUniformCircularPoolBuffer (setFramecount s call.1) call.2).2.1 rest

/-- The same run in the build with `SKIP_ERROR_HANDLING`: per call, the pointer
returned and the cursor left. -/
def reserveTrace_SKIP_ERROR_HANDLING (s : State) : List Nat → List (Nat × Nat)
  | [] => []
  | size :: rest =>
      ((vglReserveUniformCircularPoolBuffer_SKIP_ERROR_HANDLING s size).1,
       (vglReserveUniformCircularPoolBuffer_SKIP_ERROR_HANDLING s size).2.1.unif_idx)
      :: reserveTrace_SKIP_ERROR_HANDLING
          (vglReserveUniformCircularPoolBuffer_SKIP_ERROR_HANDLING s size).2.1 rest

/-! ## Matrix and vector utilities (`source/utils/math_utils.c`) -/

/-- The type `matrix4x4`: a 4 by 4 array of `float` indexed `m[row][column]` (its
declaration is in a header that is not among the sources; the shape is the one
the functions of `math_utils.c` use).  Entries are rationals: the arithmetic is
read exactly, without rounding. -/
abbrev matrix4x4 := Matrix (Fin 4) (Fin 4) ℚ

/-- The type `matrix3x3`, as `matrix4x4`. -/
abbrev matrix3x3 := Matrix (Fin 3) (Fin 3) ℚ

/-- The type `matrix2x2`, as `matrix4x4`. -/
abbrev matrix2x2 := Matrix (Fin 2) (Fin 2) ℚ

/-- The type `vector4f`: the fields `x`, `y`, `z`, `w` read and written by
`vector4f_matrix4x4_mult` (declared in a header that is not among the sources). -/
structure vector4f where
  x : ℚ
  y : ℚ
  z : ℚ
  w : ℚ
  deriving DecidableEq

/-- The assignment `a[i][j] = v` on a square array. -/
def setEntry {n : Nat} (a : Matrix (Fin n) (Fin n) ℚ) (i j : Fin n) (v : ℚ) :
    Matrix (Fin n) (Fin n) ℚ :=
  fun r c => if r = i ∧ c = j then v else a r c

/-- The call `sceClibMemset(m, 0, sizeof(matrix4x4))`: every entry becomes `0.0f`. -/
def sceClibMemset_zero (_m : matrix4x4) : matrix4x4 :=
  fun _ _ => 0

/-- The function `matrix4x4_identity`; the chained assignment stores `1.0f` from
right to left. -/
def matrix4x4_identity (m : matrix4x4) : matrix4x4 :=
  let m := sceClibMemset_zero m
  let m := setEntry m 3 3 1
  let m := setEntry m 2 2 1
  let m := setEntry m 1 1 1
  setEntry m 0 0 1

/-- The function `matrix4x4_init_translation`. -/
def matrix4x4_init_translation (m : matrix4x4) (x y z : ℚ) : matrix4x4 :=
  let m := matrix4x4_identity m
  let m := setEntry m 3 0 x
  let m := setEntry m 3 1 y
  setEntry m 3 2 z

/-- The function `matrix2x2_transpose`: the two nested loops, `out` distinct from
`m`. -/
def matrix2x2_transpose (out m : matrix2x2) : matrix2x2 :=
  ([0, 1] : List (Fin 2)).foldl
    (fun out i => ([0, 1] : List (Fin 2)).foldl (fun out j => setEntry out i j (m j i)) out)
    out

/-- The function `matrix3x3_transpose`. -/
def matrix3x3_transpose (out m : matrix3x3) : matrix3x3 :=
  ([0, 1, 2] : List (Fin 3)).foldl
    (fun out i => ([0, 1, 2] : List (Fin 3)).foldl (fun out j => setEntry out i j (m j i)) out)
    out

/-- The function `matrix4x4_transpose`. -/
def matrix4x4_transpose (out m : matrix4x4) : matrix4x4 :=
  ([0, 1, 2, 3] : List (Fin 4)).foldl
    (fun out i =>
      ([0, 1, 2, 3] : List (Fin 4)).foldl (fun out j => setEntry out i j (m j i)) out)
    out

/-- The function `matrix4x4_init_orthographic`. -/
def matrix4x4_init_orthographic (m : matrix4x4) (left right bottom top near far : ℚ) :
    matrix4x4 :=
  let m := sceClibMemset_zero m
  let m := setEntry m 0 0 (2 / (right - left))
  let m := setEntry m 1 1 (2 / (top - bottom))
  let m := setEntry m 2 2 (-2 / (far - near))
  let m := setEntry m 3 0 (-(right + left) / (right - left))
  let m := setEntry m 3 1 (-(top + bottom) / (top - bottom))
  let m := setEntry m 3 2 (-(far + near) / (far - near))
  setEntry m 3 3 1

/-- The local `det` of `matrix4x4_invert` as computed by lines 163 to 176, before
the test of line 178. -/
def matrix4x4_invert_det (m : matrix4x4) : ℚ :=
  let a0 := m 0 0 * m 1 1 - m 0 1 * m 1 0
  let a1 := m 0 0 * m 1 2 - m 0 2 * m 1 0
  let a2 := m 0 0 * m 1 3 - m 0 3 * m 1 0
  let a3 := m 0 1 * m 1 2 - m 0 2 * m 1 1
  let a4 := m 0 1 * m 1 3 - m 0 3 * m 1 1
  let a5 := m 0 2 * m 1 3 - m 0 3 * m 1 2
  let b0 := m 2 0 * m 3 1 - m 2 1 * m 3 0
  let b1 := m 2 0 * m 3 2 - m 2 2 * m 3 0
  let b2 := m 2 0 * m 3 3 - m 2 3 * m 3 0
  let b3 := m 2 1 * m 3 2 - m 2 2 * m 3 1
  let b4 := m 2 1 * m 3 3 - m 2 3 * m 3 1
  let b5 := m 2 2 * m 3 3 - m 2 3 * m 3 2
  a0 * b5 - a1 * b4 + a2 * b3 + a3 * b2 - a4 * b1 + a5 * b0

/-- The function `matrix4x4_invert`, `out` distinct from `m`: the returned `int`
and the content of `out` after the call.  The constant `0.0001f` is read as
`1 / 10000`. -/
def matrix4x4_invert (out m : matrix4x4) : Int × matrix4x4 :=
  let a0 := m 0 0 * m 1 1 - m 0 1 * m 1 0
  let a1 := m 0 0 * m 1 2 - m 0 2 * m 1 0
  let a2 := m 0 0 * m 1 3 - m 0 3 * m 1 0
  let a3 := m 0 1 * m 1 2 - m 0 2 * m 1 1
  let a4 := m 0 1 * m 1 3 - m 0 3 * m 1 1
  let a5 := m 0 2 * m 1 3 - m 0 3 * m 1 2
  let b0 := m 2 0 * m 3 1 - m 2 1 * m 3 0
  let b1 := m 2 0 * m 3 2 - m 2 2 * m 3 0
  let b2 := m 2 0 * m 3 3 - m 2 3 * m 3 0
  let b3 := m 2 1 * m 3 2 - m 2 2 * m 3 1
  let b4 := m 2 1 * m 3 3 - m 2 3 * m 3 1
  let b5 := m 2 2 * m 3 3 - m 2 3 * m 3 2
  let det := a0 * b5 - a1 * b4 + a2 * b3 + a3 * b2 - a4 * b1 + a5 * b0
  if |det| > 1 / 10000 then
    let out := setEntry out 0 0 (m 0 1 * b5 - m 1 2 * b4 + m 1 3 * b3)
    let out := setEntry out 1 0 (-m 1 0 * b5 + m 1 2 * b2 - m 1 3 * b1)
    let out := setEntry out 2 0 (m 1 0 * b4 - m 1 1 * b2 + m 1 3 * b0)
    let out := setEntry out 3 0 (-m 1 0 * b3 + m 1 1 * b1 - m 1 2 * b0)
    let out := setEntry out 0 1 (-m 0 1 * b5 + m 0 2 * b4 - m 0 3 * b3)
    let out := setEntry out 1 1 (m 0 0 * b5 - m 0 2 * b2 + m 0 3 * b1)
    let out := setEntry out 2 1 (-m 0 0 * b4 + m 0 1 * b2 - m 0 3 * b0)
    let out := setEntry out 3 1 (m 0 0 * b3 - m 0 1 * b1 + m 0 2 * b0)
    let out := setEntry out 0 2 (m 3 1 * a5 - m 3 2 * a4 + m 3 3 * a3)
    let out := setEntry out 1 2 (-m 3 0 * a5 + m 3 2 * a2 - m 3 3 * a1)
    let out := setEntry out 2 2 (m 3 0 * a4 - m 3 1 * a2 + m 3 3 * a0)
    let out := setEntry out 3 2 (-m 3 0 * a3 + m 3 1 * a1 - m 3 2 * a0)
    let out := setEntry out 0 3 (-m 2 1 * a5 + m 2 2 * a4 - m 2 3 * a3)
    let out := setEntry out 1 3 (m 2 0 * a5 - m 2 2 * a2 + m 2 3 * a1)
    let out := setEntry out 2 3 (-m 2 0 * a4 + m 2 1 * a2 - m 2 3 * a0)
    let out := setEntry out 3 3 (m 2 0 * a3 - m 2 1 * a1 + m 2 2 * a0)
    let det := 1 / det
    let out := ([0, 1, 2, 3] : List (Fin 4)).foldl
      (fun out i =>
        ([0, 1, 2, 3] : List (Fin 4)).foldl (fun out j => setEntry out i j (out i j * det)) out)
      out
    (1, out)
  else
    (0, out)

/-- The function `vector4f_matrix4x4_mult`, `u` distinct from `v`. -/
def vector4f_matrix4x4_mult (u : vector4f) (m : matrix4x4) (v : vector4f) : vector4f :=
  let u := { u with x := m 0 0 * v.x + m 1 0 * v.y + m 2 0 * v.z + m 3 0 * v.w }
  let u := { u with y := m 0 1 * v.x + m 1 1 * v.y + m 2 1 * v.z + m 3 1 * v.w }
  let u := { u with z := m 0 2 * v.x + m 1 2 * v.y + m 2 2 * v.z + m 3 2 * v.w }
  { u with w := m 0 3 * v.x + m 1 3 * v.y + m 2 3 * v.z + m 3 3 * v.w }

/-! ## Basic facts about runs -/

theorem reserve_unif_pool (s : State) (size : Nat) :
    (vglReserveUniformCircularPoolBuffer s size).2.1.unif_pool = s.unif_pool := by
  unfold vglReserveUniformCircularPoolBuffer
  split <;> rfl

theorem reserveAll_unif_pool (sizes : List Nat) (s : State) :
    (reserveAll s sizes).unif_pool = s.unif_pool := by
  induction sizes generalizing s with
  | nil => rfl
  | cons size rest ih =>
    simp only [reserveAll]
    rw [ih, reserve_unif_pool]

theorem poolAfter_unif_pool (base framecount : Nat) (sizes : List Nat) :
    (poolAfter base framecount sizes).unif_pool = base := by
  unfold poolAfter
  rw [reserveAll_unif_pool]
  rfl

theorem reserveAll_append (xs ys : List Nat) (s : State) :
    reserveAll s (xs ++ ys) = reserveAll (reserveAll s xs) ys := by
  induction xs generalizing s with
  | nil => rfl
  | cons x rest ih => exact ih _

theorem reserve_framecount (s : State) (size : Nat) :
    (vglReserveUniformCircularPoolBuffer s size).2.1.vgl_debugger_framecount
      = s.vgl_debugger_framecount := by
  unfold vglReserveUniformCircularPoolBuffer
  split <;> rfl

/-- The two branches of a reservation, in terms of `takesWrapBranch`. -/
theorem reserve_wrap (s : State) (size : Nat) (h : takesWrapBranch s size) :
    vglReserveUniformCircularPoolBuffer s size =
      (s.unif_pool,
       { s with last_frame_swap := s.vgl_debugger_framecount, unif_idx := size },
       if s.last_frame_swap = s.vgl_debugger_framecount then [Event.vgl_log] else []) := by
  unfold takesWrapBranch at h
  unfold vglReserveUniformCircularPoolBuffer
  rw [if_pos h]

theorem reserve_no_wrap (s : State) (size : Nat) (h : ¬ takesWrapBranch s size) :
    vglReserveUniformCircularPoolBuffer s size =
      ((s.unif_pool + s.unif_idx) % 2 ^ 32,
       { s with unif_idx := (s.unif_idx + size) % 2 ^ 32 },
       []) := by
  unfold takesWrapBranch at h
  unfold vglReserveUniformCircularPoolBuffer
  rw [if_neg h]

/-! ## C1: the two branches of a reservation -/

/-- C1 (as stated) fails: after `Reserve(0xFFFFFFFF)` the cursor is `0xFFFFFFFF`;
for `Reserve(1)` the mathematical sum `0x100000000` is not below the capacity, yet
the call takes the non-wrap branch: it returns the pointer `base + 0xFFFFFFFF`,
which is `base - 1` on 4 bytes (not the base), and the cursor becomes `0` (not
`1`).  Hence the universally quantified claim is false. -/
theorem C1_counterexample :
    ((poolAfter 1000 0 [4294967295]).unif_idx = 4294967295
      ∧ ¬ (4294967295 + 1 < UNIFORM_CIRCULAR_POOL_SIZE)
      ∧ (vglReserveUniformCircularPoolBuffer (poolAfter 1000 0 [4294967295]) 1).1
          = (1000 + 4294967295) % 2 ^ 32
      ∧ (vglReserveUniformCircularPoolBuffer (poolAfter 1000 0 [4294967295]) 1).1 = 999
      ∧ (vglReserveUniformCircularPoolBuffer (poolAfter 1000 0 [4294967295]) 1).2.1.unif_idx
          = 0)
    ∧ ¬ (∀ (base framecount : Nat) (sizes : List Nat) (s : Nat),
          base < 2 ^ 32 → (∀ x ∈ sizes, x < 2 ^ 32) → s < 2 ^ 32 →
          if (poolAfter base framecount sizes).unif_idx + s < UNIFORM_CIRCULAR_POOL_SIZE then
            (vglReserveUniformCircularPoolBuffer (poolAfter base framecount sizes) s).1
                = (base + (poolAfter base framecount sizes).unif_idx) % 2 ^ 32
              ∧ (vglReserveUniformCircularPoolBuffer (poolAfter base framecount sizes) s).2.1.unif_idx
                = (poolAfter base framecount sizes).unif_idx + s
          else
            (vglReserveUniformCircularPoolBuffer (poolAfter base framecount sizes) s).1 = base
              ∧ (vglReserveUniformCircularPoolBuffer (poolAfter base framecount sizes) s).2.1.unif_idx
                = s) := by
  refine ⟨by decide, ?_⟩
  intro h
  have h1 := h 1000 0 [4294967295] 1 (by decide) (by decide) (by decide)
  revert h1
  decide

/-- C1 (amended): with the sum taken as the code takes it, in 32 bits, one more
call on a reachable state returns the pointer `base + cursor` (a 4-byte pointer
sum) and advances the cursor to the 32-bit sum when that sum is below the
capacity, and otherwise returns the base and sets the cursor to the requested
size.  Whenever the mathematical sum fits in 32 bits, this is the case split of
the claim on the mathematical sum, and for a pool that lies in the address space
the pointer sum `base + cursor` does not wrap. -/
theorem C1_reserve_branches (base framecount : Nat) (sizes : List Nat) (s : Nat) :
    (((poolAfter base framecount sizes).unif_idx + s) % 2 ^ 32 < UNIFORM_CIRCULAR_POOL_SIZE →
        (vglReserveUniformCircularPoolBuffer (poolAfter base framecount sizes) s).1
            = (base + (poolAfter base framecount sizes).unif_idx) % 2 ^ 32
          ∧ (vglReserveUniformCircularPoolBuffer (poolAfter base framecount sizes) s).2.1.unif_idx
            = ((poolAfter base framecount sizes).unif_idx + s) % 2 ^ 32)
    ∧ (¬ ((poolAfter base framecount sizes).unif_idx + s) % 2 ^ 32 < UNIFORM_CIRCULAR_POOL_SIZE →
        (vglReserveUniformCircularPoolBuffer (poolAfter base framecount sizes) s).1 = base
          ∧ (vglReserveUniformCircularPoolBuffer (poolAfter base framecount sizes) s).2.1.unif_idx
            = s)
    ∧ ((poolAfter base framecount sizes).unif_idx + s < 2 ^ 32 →
        if (poolAfter base framecount sizes).unif_idx + s < UNIFORM_CIRCULAR_POOL_SIZE then
          (vglReserveUniformCircularPoolBuffer (poolAfter base framecount sizes) s).1
              = (base + (poolAfter base framecount sizes).unif_idx) % 2 ^ 32
            ∧ (base + UNIFORM_CIRCULAR_POOL_SIZE ≤ 2 ^ 32 →
                (vglReserveUniformCircularPoolBuffer (poolAfter base framecount sizes) s).1
                  = base + (poolAfter base framecount sizes).unif_idx)
            ∧ (vglReserveUniformCircularPoolBuffer (poolAfter base framecount sizes) s).2.1.unif_idx
              = (poolAfter base framecount sizes).unif_idx + s
        else
          (vglReserveUniformCircularPoolBuffer (poolAfter base framecount sizes) s).1 = base
            ∧ (vglReserveUniformCircularPoolBuffer (poolAfter base framecount sizes) s).2.1.unif_idx
              = s) := by
  have hb := poolAfter_unif_pool base framecount sizes
  generalize poolAfter base framecount sizes = st at hb ⊢
  refine ⟨?_, ?_, ?_⟩
  · intro h
    have hn : ¬ takesWrapBranch st s := by
      unfold takesWrapBranch; omega
    rw [reserve_no_wrap st s hn]
    simp [hb]
  · intro h
    have hw : takesWrapBranch st s := by
      unfold takesWrapBranch; omega
    rw [reserve_wrap st s hw]
    simp [hb]
  · intro hlt
    have hmod : (st.unif_idx + s) % 2 ^ 32 = st.unif_idx + s := Nat.mod_eq_of_lt hlt
    by_cases h : st.unif_idx + s < UNIFORM_CIRCULAR_POOL_SIZE
    · have hn : ¬ takesWrapBranch st s := by
        unfold takesWrapBranch; omega
      rw [if_pos h, reserve_no_wrap st s hn]
      refine ⟨by simp [hb], ?_, hmod⟩
      intro hpool
      show (st.unif_pool + st.unif_idx) % 2 ^ 32 = base + st.unif_idx
      rw [hb]
      apply Nat.mod_eq_of_lt
      omega
    · have hw : takesWrapBranch st s := by
        unfold takesWrapBranch; omega
      rw [if_neg h, reserve_wrap st s hw]
      simp [hb]

/-- Witness of `C1_reserve_branches`: the toy run of two reservations followed by
a third that fits, and one that does not. -/
theorem C1_reserve_branches_witness :
    ((vglReserveUniformCircularPoolBuffer (poolAfter 1000 0 [10, 4]) 5).1 = 1000 + 14
      ∧ (vglReserveUniformCircularPoolBuffer (poolAfter 1000 0 [10, 4]) 5).2.1.unif_idx = 19)
    ∧ ((vglReserveUniformCircularPoolBuffer (poolAfter 1000 0 [10, 4]) 2097150).1 = 1000
      ∧ (vglReserveUniformCircularPoolBuffer (poolAfter 1000 0 [10, 4]) 2097150).2.1.unif_idx
          = 2097150) :=
  ⟨by simpa using (C1_reserve_branches 1000 0 [10, 4] 5).1 (by decide),
   by simpa using (C1_reserve_branches 1000 0 [10, 4] 2097150).2.1 (by decide)⟩

/-! ## C2: the diagnostic of the wrap branch -/

theorem reserve_events (s : State) (size : Nat) :
    (vglReserveUniformCircularPoolBuffer s size).2.2 =
      if takesWrapBranch s size ∧ s.last_frame_swap = s.vgl_debugger_framecount then
        [Event.vgl_log]
      else [] := by
  by_cases h : takesWrapBranch s size
  · rw [reserve_wrap s size h]
    by_cases h2 : s.last_frame_swap = s.vgl_debugger_framecount <;> simp [h, h2]
  · rw [reserve_no_wrap s size h]
    simp [h]

theorem reserve_latched (s : State) (size : Nat)
    (h : s.last_frame_swap = s.vgl_debugger_framecount) :
    (vglReserveUniformCircularPoolBuffer s size).2.1.last_frame_swap
      = (vglReserveUniformCircularPoolBuffer s size).2.1.vgl_debugger_framecount := by
  unfold vglReserveUniformCircularPoolBuffer
  split
  · rfl
  · exact h

theorem reserveAll_latched (sizes : List Nat) (s : State)
    (h : s.last_frame_swap = s.vgl_debugger_framecount) :
    (reserveAll s sizes).last_frame_swap = (reserveAll s sizes).vgl_debugger_framecount := by
  induction sizes generalizing s with
  | nil => exact h
  | cons size rest ih =>
    simp only [reserveAll]
    exact ih _ (reserve_latched s size h)

theorem reserveAll_noWrap_latch (sizes : List Nat) (s : State) (h : noWrap s sizes) :
    (reserveAll s sizes).last_frame_swap = s.last_frame_swap
      ∧ (reserveAll s sizes).vgl_debugger_framecount = s.vgl_debugger_framecount := by
  induction sizes generalizing s with
  | nil => exact ⟨rfl, rfl⟩
  | cons size rest ih =>
    simp only [reserveAll]
    obtain ⟨h1, h2⟩ := h
    have := ih _ h2
    rw [reserve_no_wrap s size h1] at this ⊢
    exact this

/-- C2 (as stated) fails: from program start the frame counter moves to 1 and three
reservations of the whole capacity follow, each taking the wrap branch.  The
first wrap under frame 1 emits no diagnostic, and the second and the third wrap
under the same frame emit one each: two diagnostics under one frame index. -/
theorem C2_counterexample :
    (poolRun (vglSetupUniformCircularPool (initialState 0) 1000)
        [PoolOp.frame 1, PoolOp.reserve 2097152, PoolOp.reserve 2097152,
         PoolOp.reserve 2097152]).2
      = [[], [], [Event.vgl_log], [Event.vgl_log]]
    ∧ takesWrapBranch
        (poolRun (vglSetupUniformCircularPool (initialState 0) 1000) [PoolOp.frame 1]).1 2097152
    ∧ takesWrapBranch
        (poolRun (vglSetupUniformCircularPool (initialState 0) 1000)
          [PoolOp.frame 1, PoolOp.reserve 2097152]).1 2097152
    ∧ takesWrapBranch
        (poolRun (vglSetupUniformCircularPool (initialState 0) 1000)
          [PoolOp.frame 1, PoolOp.reserve 2097152, PoolOp.reserve 2097152]).1 2097152 := by
  decide

/-- C2 (amended): after any run of reservations and frame-counter changes, a call
emits exactly one diagnostic when it takes the wrap branch while the latch
`last_frame_swap` equals the frame counter, and none otherwise; a wrap stores the
frame counter in the latch.  Hence once a call has wrapped, every later wrap
before the next change of the frame counter emits exactly one diagnostic, and
after the frame counter has moved to a value other than the latch, the first
wrap emits none. -/
theorem C2_diagnostic_on_repeated_wrap (base f0 : Nat) (ops : List PoolOp) (size : Nat) :
    (vglReserveUniformCircularPoolBuffer
        (poolRun (vglSetupUniformCircularPool (initialState f0) base) ops).1 size).2.2
      = (if takesWrapBranch
              (poolRun (vglSetupUniformCircularPool (initialState f0) base) ops).1 size
            ∧ (poolRun (vglSetupUniformCircularPool (initialState f0) base) ops).1.last_frame_swap
              = (poolRun (vglSetupUniformCircularPool (initialState f0) base)
                  ops).1.vgl_debugger_framecount
         then [Event.vgl_log] else [])
    ∧ (takesWrapBranch (poolRun (vglSetupUniformCircularPool (initialState f0) base) ops).1 size →
        (vglReserveUniformCircularPoolBuffer
            (poolRun (vglSetupUniformCircularPool (initialState f0) base) ops).1
            size).2.1.last_frame_swap
          = (poolRun (vglSetupUniformCircularPool (initialState f0) base)
              ops).1.vgl_debugger_framecount)
    ∧ (takesWrapBranch (poolRun (vglSetupUniformCircularPool (initialState f0) base) ops).1 size →
        ∀ (mid : List Nat) (size2 : Nat),
          takesWrapBranch
            (reserveAll
              (vglReserveUniformCircularPoolBuffer
                (poolRun (vglSetupUniformCircularPool (initialState f0) base) ops).1 size).2.1
              mid) size2 →
          (vglReserveUniformCircularPoolBuffer
            (reserveAll
              (vglReserveUniformCircularPoolBuffer
                (poolRun (vglSetupUniformCircularPool (initialState f0) base) ops).1 size).2.1
              mid) size2).2.2 = [Event.vgl_log])
    ∧ (∀ (f : Nat) (mid : List Nat),
        f ≠ (poolRun (vglSetupUniformCircularPool (initialState f0) base) ops).1.last_frame_swap →
        noWrap
          (setFramecount (poolRun (vglSetupUniformCircularPool (initialState f0) base) ops).1 f)
          mid →
        takesWrapBranch
          (reserveAll
            (setFramecount (poolRun (vglSetupUniformCircularPool (initialState f0) base) ops).1 f)
            mid) size →
        (vglReserveUniformCircularPoolBuffer
          (reserveAll
            (setFramecount (poolRun (vglSetupUniformCircularPool (initialState f0) base) ops).1 f)
            mid) size).2.2 = []) := by
  generalize (poolRun (vglSetupUniformCircularPool (initialState f0) base) ops).1 = st
  refine ⟨reserve_events st size, ?_, ?_, ?_⟩
  · intro h
    rw [reserve_wrap st size h]
  · intro h mid size2 h2
    have hl : (vglReserveUniformCircularPoolBuffer st size).2.1.last_frame_swap
        = (vglReserveUniformCircularPoolBuffer st size).2.1.vgl_debugger_framecount := by
      rw [reserve_wrap st size h]
    have hl2 := reserveAll_latched mid _ hl
    rw [reserve_events, if_pos ⟨h2, hl2⟩]
  · intro f mid hf hn hw
    have hk := reserveAll_noWrap_latch mid _ hn
    have hne : (reserveAll (setFramecount st f) mid).last_frame_swap
        ≠ (reserveAll (setFramecount st f) mid).vgl_debugger_framecount := by
      rw [hk.1, hk.2]
      exact fun h => hf h.symm
    rw [reserve_events, if_neg (fun h => hne h.2)]

/-- Witness of `C2_diagnostic_on_repeated_wrap`: after the frame counter moved to
3, a first wrap, two small reservations, then a second wrap, which emits the
diagnostic; and after the frame counter moved on to 4, two small reservations and
a wrap, which emits none. -/
theorem C2_diagnostic_on_repeated_wrap_witness :
    (vglReserveUniformCircularPoolBuffer
      (reserveAll
        (vglReserveUniformCircularPoolBuffer
          (poolRun (vglSetupUniformCircularPool (initialState 0) 1000)
            [PoolOp.reserve 10, PoolOp.frame 3]).1 2097152).2.1
        [4, 5]) 2097152).2.2 = [Event.vgl_log]
    ∧ (vglReserveUniformCircularPoolBuffer
        (reserveAll
          (setFramecount
            (poolRun (vglSetupUniformCircularPool (initialState 0) 1000)
              [PoolOp.reserve 10, PoolOp.frame 3]).1 4)
          [4, 5]) 2097152).2.2 = [] :=
  ⟨(C2_diagnostic_on_repeated_wrap 1000 0 [PoolOp.reserve 10, PoolOp.frame 3] 2097152).2.2.1
      (by decide) [4, 5] 2097152 (by decide),
   (C2_diagnostic_on_repeated_wrap 1000 0 [PoolOp.reserve 10, PoolOp.frame 3] 2097152).2.2.2
      4 [4, 5] (by decide) ⟨by decide, by decide, trivial⟩ (by decide)⟩

/-! ## C3, C4: reservations that fit the pool -/

theorem reserve_idx_le (s : State) (size : Nat) (hsize : size ≤ UNIFORM_CIRCULAR_POOL_SIZE) :
    (vglReserveUniformCircularPoolBuffer s size).2.1.unif_idx ≤ UNIFORM_CIRCULAR_POOL_SIZE := by
  unfold vglReserveUniformCircularPoolBuffer
  unfold UNIFORM_CIRCULAR_POOL_SIZE at *
  split
  · exact hsize
  · show (s.unif_idx + size) % 2 ^ 32 ≤ 2 * 1024 * 1024
    omega

theorem reserveAll_idx_le (sizes : List Nat) (s : State)
    (hs : s.unif_idx ≤ UNIFORM_CIRCULAR_POOL_SIZE)
    (hsizes : ∀ x ∈ sizes, x ≤ UNIFORM_CIRCULAR_POOL_SIZE) :
    (reserveAll s sizes).unif_idx ≤ UNIFORM_CIRCULAR_POOL_SIZE := by
  induction sizes generalizing s with
  | nil => exact hs
  | cons size rest ih =>
    simp only [reserveAll]
    exact ih _ (reserve_idx_le s size (hsizes size (List.mem_cons_self _ _)))
      (fun x hx => hsizes x (List.mem_cons_of_mem _ hx))

theorem poolAfter_idx_le (base framecount : Nat) (sizes : List Nat)
    (hsizes : ∀ x ∈ sizes, x ≤ UNIFORM_CIRCULAR_POOL_SIZE) :
    (poolAfter base framecount sizes).unif_idx ≤ UNIFORM_CIRCULAR_POOL_SIZE :=
  reserveAll_idx_le sizes _ (Nat.zero_le _) hsizes

/-- C3: when every requested size is at most the capacity, each call of a run from
program start returns the pointer `base + off` with `off + size` at most the
capacity; the offset is `0`, or it is the previous cursor and the whole run of
`size` bytes ends below the capacity.  For a pool that lies in the address space
the pointer sum does not wrap: the bytes are those of the pool. -/
theorem C3_reservation_inside_pool (base framecount : Nat) (sizes : List Nat) (size : Nat)
    (hbase : base < 2 ^ 32)
    (hsizes : ∀ x ∈ sizes, x ≤ UNIFORM_CIRCULAR_POOL_SIZE)
    (hsize : size ≤ UNIFORM_CIRCULAR_POOL_SIZE) :
    ∃ off : Nat,
      (vglReserveUniformCircularPoolBuffer (poolAfter base framecount sizes) size).1
          = (base + off) % 2 ^ 32
      ∧ (base + UNIFORM_CIRCULAR_POOL_SIZE ≤ 2 ^ 32 →
          (vglReserveUniformCircularPoolBuffer (poolAfter base framecount sizes) size).1
            = base + off)
      ∧ 0 ≤ off
      ∧ off + size ≤ UNIFORM_CIRCULAR_POOL_SIZE
      ∧ (off = 0
          ∨ (off = (poolAfter base framecount sizes).unif_idx
              ∧ (poolAfter base framecount sizes).unif_idx + size
                  < UNIFORM_CIRCULAR_POOL_SIZE)) := by
  have hb := poolAfter_unif_pool base framecount sizes
  have hle := poolAfter_idx_le base framecount sizes hsizes
  generalize poolAfter base framecount sizes = st at hb hle ⊢
  by_cases h : takesWrapBranch st size
  · refine ⟨0, ?_, ?_, Nat.le_refl 0, ?_, Or.inl rfl⟩
    · rw [reserve_wrap st size h]
      show st.unif_pool = (base + 0) % 2 ^ 32
      rw [hb]
      omega
    · intro _
      rw [reserve_wrap st size h]
      simp [hb]
    · omega
  · have hlt : st.unif_idx + size < UNIFORM_CIRCULAR_POOL_SIZE := by
      unfold takesWrapBranch at h
      unfold UNIFORM_CIRCULAR_POOL_SIZE at *
      omega
    refine ⟨st.unif_idx, ?_, ?_, Nat.zero_le _, Nat.le_of_lt hlt, Or.inr ⟨rfl, hlt⟩⟩
    · rw [reserve_no_wrap st size h]
      simp [hb]
    · intro hpool
      rw [reserve_no_wrap st size h]
      show (st.unif_pool + st.unif_idx) % 2 ^ 32 = base + st.unif_idx
      rw [hb]
      apply Nat.mod_eq_of_lt
      omega

/-- Witness of `C3_reservation_inside_pool`: a run that ends with the cursor at
the capacity, followed by a request for the whole capacity. -/
theorem C3_reservation_inside_pool_witness :
    ∃ off : Nat,
      (vglReserveUniformCircularPoolBuffer (poolAfter 1000 0 [10, 2097152]) 2097152).1
          = (1000 + off) % 2 ^ 32
      ∧ (1000 + UNIFORM_CIRCULAR_POOL_SIZE ≤ 2 ^ 32 →
          (vglReserveUniformCircularPoolBuffer (poolAfter 1000 0 [10, 2097152]) 2097152).1
            = 1000 + off)
      ∧ 0 ≤ off
      ∧ off + 2097152 ≤ UNIFORM_CIRCULAR_POOL_SIZE
      ∧ (off = 0
          ∨ (off = (poolAfter 1000 0 [10, 2097152]).unif_idx
              ∧ (poolAfter 1000 0 [10, 2097152]).unif_idx + 2097152
                  < UNIFORM_CIRCULAR_POOL_SIZE)) :=
  C3_reservation_inside_pool 1000 0 [10, 2097152] 2097152 (by decide) (by decide) (by decide)

/-- C4 (as stated) fails: a single request for exactly the capacity takes the wrap
branch and leaves the cursor equal to the capacity, which is not below it. -/
theorem C4_counterexample :
    (2097152 ≤ UNIFORM_CIRCULAR_POOL_SIZE
      ∧ (poolAfter 1000 0 [2097152]).unif_idx = UNIFORM_CIRCULAR_POOL_SIZE)
    ∧ ¬ (∀ (base framecount : Nat) (sizes : List Nat),
          (∀ x ∈ sizes, x ≤ UNIFORM_CIRCULAR_POOL_SIZE) →
          (poolAfter base framecount sizes).unif_idx < UNIFORM_CIRCULAR_POOL_SIZE) := by
  refine ⟨by decide, ?_⟩
  intro h
  have h1 := h 1000 0 [2097152] (by decide)
  revert h1
  decide

/-- C4 (amended): in a run from program start in which every requested size is at
most the capacity, the cursor is below the capacity after every call whose own
size is below the capacity, and equals the capacity after every call that
requests exactly the capacity; so it never exceeds the capacity. -/
theorem C4_cursor_bound (base framecount : Nat) (sizes : List Nat) (size : Nat)
    (hsizes : ∀ x ∈ sizes, x ≤ UNIFORM_CIRCULAR_POOL_SIZE)
    (hsize : size ≤ UNIFORM_CIRCULAR_POOL_SIZE) :
    (size < UNIFORM_CIRCULAR_POOL_SIZE →
        (poolAfter base framecount (sizes ++ [size])).unif_idx < UNIFORM_CIRCULAR_POOL_SIZE)
    ∧ (size = UNIFORM_CIRCULAR_POOL_SIZE →
        (poolAfter base framecount (sizes ++ [size])).unif_idx = UNIFORM_CIRCULAR_POOL_SIZE)
    ∧ (poolAfter base framecount (sizes ++ [size])).unif_idx ≤ UNIFORM_CIRCULAR_POOL_SIZE := by
  have hle := poolAfter_idx_le base framecount sizes hsizes
  have hstep : poolAfter base framecount (sizes ++ [size])
      = (vglReserveUniformCircularPoolBuffer (poolAfter base framecount sizes) size).2.1 := by
    unfold poolAfter
    rw [reserveAll_append]
    rfl
  rw [hstep]
  generalize poolAfter base framecount sizes = st at hle ⊢
  by_cases h : takesWrapBranch st size
  · rw [reserve_wrap st size h]
    exact ⟨fun h1 => h1, fun h1 => h1, hsize⟩
  · rw [reserve_no_wrap st size h]
    unfold takesWrapBranch at h
    unfold UNIFORM_CIRCULAR_POOL_SIZE at *
    refine ⟨fun _ => ?_, fun h1 => ?_, ?_⟩
    · show (st.unif_idx + size) % 2 ^ 32 < 2 * 1024 * 1024
      omega
    · exfalso
      omega
    · show (st.unif_idx + size) % 2 ^ 32 ≤ 2 * 1024 * 1024
      omega

/-- Witness of `C4_cursor_bound`. -/
theorem C4_cursor_bound_witness :
    (poolAfter 1000 0 ([10, 2097152] ++ [7])).unif_idx < UNIFORM_CIRCULAR_POOL_SIZE
    ∧ (poolAfter 1000 0 ([10, 4] ++ [2097152])).unif_idx = UNIFORM_CIRCULAR_POOL_SIZE :=
  ⟨(C4_cursor_bound 1000 0 [10, 2097152] 7 (by decide) (by decide)).1 (by decide),
   (C4_cursor_bound 1000 0 [10, 4] 2097152 (by decide) (by decide)).2.1 (by decide)⟩

/-! ## C5: the empty reservation -/

/-- C5 (as stated) fails: after a request for exactly the capacity the cursor
equals the capacity; `Reserve(0)` then takes the wrap branch, returns the base
(not `base + cursor`) and sets the cursor to `0`. -/
theorem C5_counterexample :
    ((poolAfter 1000 0 [2097152]).unif_idx = 2097152
      ∧ (vglReserveUniformCircularPoolBuffer (poolAfter 1000 0 [2097152]) 0).1 = 1000
      ∧ (vglReserveUniformCircularPoolBuffer (poolAfter 1000 0 [2097152]) 0).2.1.unif_idx = 0)
    ∧ ¬ (∀ (base framecount : Nat) (sizes : List Nat),
          base < 2 ^ 32 → (∀ x ∈ sizes, x < 2 ^ 32) →
          (vglReserveUniformCircularPoolBuffer (poolAfter base framecount sizes) 0).1
              = (base + (poolAfter base framecount sizes).unif_idx) % 2 ^ 32
            ∧ (vglReserveUniformCircularPoolBuffer (poolAfter base framecount sizes) 0).2.1.unif_idx
              = (poolAfter base framecount sizes).unif_idx) := by
  refine ⟨by decide, ?_⟩
  intro h
  have h1 := h 1000 0 [2097152] (by decide) (by decide)
  revert h1
  decide

/-- C5 (amended): on a state reached from program start whose cursor is below the
capacity, `Reserve(0)` returns the pointer `base + cursor`, changes no variable
and emits nothing; for a pool that lies in the address space the pointer sum does
not wrap. -/
theorem C5_reserve_zero (base framecount : Nat) (sizes : List Nat)
    (hidx : (poolAfter base framecount sizes).unif_idx < UNIFORM_CIRCULAR_POOL_SIZE) :
    vglReserveUniformCircularPoolBuffer (poolAfter base framecount sizes) 0
        = ((base + (poolAfter base framecount sizes).unif_idx) % 2 ^ 32,
           poolAfter base framecount sizes, [])
    ∧ (base + UNIFORM_CIRCULAR_POOL_SIZE ≤ 2 ^ 32 →
        vglReserveUniformCircularPoolBuffer (poolAfter base framecount sizes) 0
          = (base + (poolAfter base framecount sizes).unif_idx,
             poolAfter base framecount sizes, [])) := by
  have hb := poolAfter_unif_pool base framecount sizes
  generalize poolAfter base framecount sizes = st at hb hidx ⊢
  have hn : ¬ takesWrapBranch st 0 := by
    unfold takesWrapBranch
    unfold UNIFORM_CIRCULAR_POOL_SIZE at *
    omega
  have hmod : (st.unif_idx + 0) % 2 ^ 32 = st.unif_idx := by
    unfold UNIFORM_CIRCULAR_POOL_SIZE at hidx
    omega
  subst hb
  rw [reserve_no_wrap st 0 hn, hmod]
  refine ⟨rfl, ?_⟩
  intro hpool
  have hp : (st.unif_pool + st.unif_idx) % 2 ^ 32 = st.unif_pool + st.unif_idx := by
    apply Nat.mod_eq_of_lt
    omega
  rw [hp]

/-- Witness of `C5_reserve_zero`. -/
theorem C5_reserve_zero_witness :
    vglReserveUniformCircularPoolBuffer (poolAfter 1000 0 [10, 4]) 0
      = (1000 + (poolAfter 1000 0 [10, 4]).unif_idx, poolAfter 1000 0 [10, 4], []) :=
  (C5_reserve_zero 1000 0 [10, 4] (by decide)).2 (by decide)

/-! ## C6, C7: consecutive reservations -/

/-- C6 (as stated) fails: from the cursor `0xFFFFFFFF` (reached by one call) the
sizes `2` and `0xFFFFFFFF` both take the non-wrap branch; the offsets returned are
`0xFFFFFFFF` and `1` (the pointers `base - 1` and `base + 1`), and the two ranges
overlap: as ranges of offsets they share the offset `0xFFFFFFFF`, and as ranges of
addresses the first byte of the first range is a byte of the second. -/
theorem C6_counterexample :
    (¬ takesWrapBranch (poolAfter 1000 0 [4294967295]) 2
      ∧ ¬ takesWrapBranch
          (vglReserveUniformCircularPoolBuffer (poolAfter 1000 0 [4294967295]) 2).2.1 4294967295
      ∧ (vglReserveUniformCircularPoolBuffer (poolAfter 1000 0 [4294967295]) 2).1
          = (1000 + 4294967295) % 2 ^ 32
      ∧ (vglReserveUniformCircularPoolBuffer (poolAfter 1000 0 [4294967295]) 2).1 = 999
      ∧ (vglReserveUniformCircularPoolBuffer
          (vglReserveUniformCircularPoolBuffer (poolAfter 1000 0 [4294967295]) 2).2.1
          4294967295).1 = (1000 + 1) % 2 ^ 32
      ∧ (vglReserveUniformCircularPoolBuffer
          (vglReserveUniformCircularPoolBuffer (poolAfter 1000 0 [4294967295]) 2).2.1
          4294967295).1 = 1001)
    ∧ ¬ (∀ (st : State) (s1 s2 off1 off2 : Nat),
          st.unif_pool < 2 ^ 32 → st.unif_idx < 2 ^ 32 → s1 < 2 ^ 32 → s2 < 2 ^ 32 →
          ¬ takesWrapBranch st s1 →
          ¬ takesWrapBranch (vglReserveUniformCircularPoolBuffer st s1).2.1 s2 →
          off1 < 2 ^ 32 → off2 < 2 ^ 32 →
          (vglReserveUniformCircularPoolBuffer st s1).1 = (st.unif_pool + off1) % 2 ^ 32 →
          (vglReserveUniformCircularPoolBuffer
            (vglReserveUniformCircularPoolBuffer st s1).2.1 s2).1
              = (st.unif_pool + off2) % 2 ^ 32 →
          ∀ b : Nat, ¬ ((off1 ≤ b ∧ b < off1 + s1) ∧ (off2 ≤ b ∧ b < off2 + s2)))
    ∧ ¬ (∀ (st : State) (s1 s2 : Nat),
          st.unif_pool < 2 ^ 32 → st.unif_idx < 2 ^ 32 → s1 < 2 ^ 32 → s2 < 2 ^ 32 →
          ¬ takesWrapBranch st s1 →
          ¬ takesWrapBranch (vglReserveUniformCircularPoolBuffer st s1).2.1 s2 →
          ∀ k1 k2 : Nat, k1 < s1 → k2 < s2 →
            ((vglReserveUniformCircularPoolBuffer st s1).1 + k1) % 2 ^ 32
              ≠ ((vglReserveUniformCircularPoolBuffer
                  (vglReserveUniformCircularPoolBuffer st s1).2.1 s2).1 + k2) % 2 ^ 32) := by
  refine ⟨by decide, ?_, ?_⟩
  · intro h
    have h1 := h (poolAfter 1000 0 [4294967295]) 2 4294967295 4294967295 1
      (by decide) (by decide) (by decide) (by decide) (by decide) (by decide)
      (by decide) (by decide) (by decide) (by decide) 4294967295
    revert h1
    decide
  · intro h
    have h1 := h (poolAfter 1000 0 [4294967295]) 2 4294967295
      (by decide) (by decide) (by decide) (by decide) (by decide) (by decide)
      0 4294967294 (by decide) (by decide)
    revert h1
    decide

/-- C6 (amended): when the sum of the cursor and the two sizes fits in 32 bits and
two consecutive calls both take the non-wrap branch, the second returned offset is
the first plus the first size, the second range ends below the capacity, and the
two byte ranges have no byte in common, neither as ranges of offsets nor as ranges
of 4-byte addresses. -/
theorem C6_adjacent_reservations (st : State) (s1 s2 off1 off2 : Nat)
    (hfit : st.unif_idx + s1 + s2 < 2 ^ 32)
    (h1 : ¬ takesWrapBranch st s1)
    (h2 : ¬ takesWrapBranch (vglReserveUniformCircularPoolBuffer st s1).2.1 s2)
    (hlt1 : off1 < 2 ^ 32) (hlt2 : off2 < 2 ^ 32)
    (hoff1 : (vglReserveUniformCircularPoolBuffer st s1).1 = (st.unif_pool + off1) % 2 ^ 32)
    (hoff2 : (vglReserveUniformCircularPoolBuffer
                (vglReserveUniformCircularPoolBuffer st s1).2.1 s2).1
              = (st.unif_pool + off2) % 2 ^ 32) :
    off2 = off1 + s1
    ∧ off2 + s2 < UNIFORM_CIRCULAR_POOL_SIZE
    ∧ (∀ b : Nat, ¬ ((off1 ≤ b ∧ b < off1 + s1) ∧ (off2 ≤ b ∧ b < off2 + s2)))
    ∧ (∀ k1 k2 : Nat, k1 < s1 → k2 < s2 →
        ((vglReserveUniformCircularPoolBuffer st s1).1 + k1) % 2 ^ 32
          ≠ ((vglReserveUniformCircularPoolBuffer
              (vglReserveUniformCircularPoolBuffer st s1).2.1 s2).1 + k2) % 2 ^ 32) := by
  have hmod : (st.unif_idx + s1) % 2 ^ 32 = st.unif_idx + s1 :=
    Nat.mod_eq_of_lt (by omega)
  have hlt : st.unif_idx + s1 + s2 < UNIFORM_CIRCULAR_POOL_SIZE := by
    rw [reserve_no_wrap st s1 h1] at h2
    unfold takesWrapBranch at h2
    simp only [hmod] at h2
    have hmod2 : (st.unif_idx + s1 + s2) % 2 ^ 32 = st.unif_idx + s1 + s2 :=
      Nat.mod_eq_of_lt hfit
    rw [hmod2] at h2
    omega
  rw [reserve_no_wrap _ s2 h2] at hoff2 ⊢
  rw [reserve_no_wrap st s1 h1] at hoff1 hoff2 ⊢
  simp only [hmod] at hoff2 ⊢
  have e1 : off1 = st.unif_idx := by omega
  have e2 : off2 = st.unif_idx + s1 := by omega
  unfold UNIFORM_CIRCULAR_POOL_SIZE at *
  refine ⟨by omega, by omega, ?_, ?_⟩
  · intro b hb
    omega
  · intro k1 k2 hk1 hk2
    omega

/-- Witness of `C6_adjacent_reservations`: the sizes 10 and 4 from program start. -/
theorem C6_adjacent_reservations_witness :
    (¬ takesWrapBranch (poolAfter 1000 0 []) 10
      ∧ ¬ takesWrapBranch (vglReserveUniformCircularPoolBuffer (poolAfter 1000 0 []) 10).2.1 4
      ∧ (vglReserveUniformCircularPoolBuffer (poolAfter 1000 0 []) 10).1
          = ((poolAfter 1000 0 []).unif_pool + 0) % 2 ^ 32
      ∧ (vglReserveUniformCircularPoolBuffer
          (vglReserveUniformCircularPoolBuffer (poolAfter 1000 0 []) 10).2.1 4).1
          = ((poolAfter 1000 0 []).unif_pool + 10) % 2 ^ 32)
    ∧ ((10 : Nat) = 0 + 10
      ∧ 10 + 4 < UNIFORM_CIRCULAR_POOL_SIZE
      ∧ (∀ b : Nat, ¬ ((0 ≤ b ∧ b < 0 + 10) ∧ (10 ≤ b ∧ b < 10 + 4)))
      ∧ (∀ k1 k2 : Nat, k1 < 10 → k2 < 4 →
          ((vglReserveUniformCircularPoolBuffer (poolAfter 1000 0 []) 10).1 + k1) % 2 ^ 32
            ≠ ((vglReserveUniformCircularPoolBuffer
                (vglReserveUniformCircularPoolBuffer (poolAfter 1000 0 []) 10).2.1 4).1
                + k2) % 2 ^ 32)) :=
  ⟨by decide,
   C6_adjacent_reservations (poolAfter 1000 0 []) 10 4 0 10
    (by decide) (by decide) (by decide) (by decide) (by decide) (by decide) (by decide)⟩

/-- C7 (as stated) fails: from program start `Reserve(0)` followed by `Reserve(1)`;
the second call does not wrap and both calls return the offset `0`. -/
theorem C7_counterexample :
    (¬ takesWrapBranch
        (vglReserveUniformCircularPoolBuffer (poolAfter 1000 0 []) 0).2.1 1
      ∧ (vglReserveUniformCircularPoolBuffer (poolAfter 1000 0 []) 0).1 = 1000 + 0
      ∧ (vglReserveUniformCircularPoolBuffer
          (vglReserveUniformCircularPoolBuffer (poolAfter 1000 0 []) 0).2.1 1).1 = 1000 + 0)
    ∧ ¬ (∀ (st : State) (s1 s2 off1 off2 : Nat),
          st.unif_pool < 2 ^ 32 → st.unif_idx < 2 ^ 32 → s1 < 2 ^ 32 → s2 < 2 ^ 32 →
          ¬ takesWrapBranch (vglReserveUniformCircularPoolBuffer st s1).2.1 s2 →
          off1 < 2 ^ 32 → off2 < 2 ^ 32 →
          (vglReserveUniformCircularPoolBuffer st s1).1 = (st.unif_pool + off1) % 2 ^ 32 →
          (vglReserveUniformCircularPoolBuffer
            (vglReserveUniformCircularPoolBuffer st s1).2.1 s2).1
              = (st.unif_pool + off2) % 2 ^ 32 →
          off1 < off2) := by
  refine ⟨by decide, ?_⟩
  intro h
  have h1 := h (poolAfter 1000 0 []) 0 1 0 0 (by decide) (by decide) (by decide) (by decide)
    (by decide) (by decide) (by decide) (by decide) (by decide)
  revert h1
  decide

/-- C7 (amended): when the first of two consecutive calls requests a nonzero size
whose sum with the cursor fits in 32 bits, and the second call does not take the
wrap branch, the offset returned by the second call is strictly greater than the
offset returned by the first.  The offset returned by a call is the 32-bit value
`off` for which the returned pointer is the 4-byte pointer sum `unif_pool + off`. -/
theorem C7_increasing_offsets (st : State) (s1 s2 off1 off2 : Nat)
    (hpos : s1 ≠ 0)
    (hfit : st.unif_idx + s1 < 2 ^ 32)
    (h2 : ¬ takesWrapBranch (vglReserveUniformCircularPoolBuffer st s1).2.1 s2)
    (hlt1 : off1 < 2 ^ 32) (hlt2 : off2 < 2 ^ 32)
    (hoff1 : (vglReserveUniformCircularPoolBuffer st s1).1 = (st.unif_pool + off1) % 2 ^ 32)
    (hoff2 : (vglReserveUniformCircularPoolBuffer
                (vglReserveUniformCircularPoolBuffer st s1).2.1 s2).1
              = (st.unif_pool + off2) % 2 ^ 32) :
    off1 < off2 := by
  have hmod : (st.unif_idx + s1) % 2 ^ 32 = st.unif_idx + s1 := Nat.mod_eq_of_lt hfit
  rw [reserve_no_wrap _ s2 h2] at hoff2
  by_cases h1 : takesWrapBranch st s1
  · rw [reserve_wrap st s1 h1] at hoff1 hoff2
    simp only at hoff1 hoff2
    omega
  · rw [reserve_no_wrap st s1 h1] at hoff1 hoff2
    simp only [hmod] at hoff1 hoff2
    omega

/-- Witness of `C7_increasing_offsets`: the sizes 10 and 4 from program start. -/
theorem C7_increasing_offsets_witness :
    (¬ takesWrapBranch (vglReserveUniformCircularPoolBuffer (poolAfter 1000 0 []) 10).2.1 4
      ∧ (vglReserveUniformCircularPoolBuffer (poolAfter 1000 0 []) 10).1
          = ((poolAfter 1000 0 []).unif_pool + 0) % 2 ^ 32
      ∧ (vglReserveUniformCircularPoolBuffer
          (vglReserveUniformCircularPoolBuffer (poolAfter 1000 0 []) 10).2.1 4).1
          = ((poolAfter 1000 0 []).unif_pool + 10) % 2 ^ 32)
    ∧ (0 : Nat) < 10 :=
  ⟨by decide,
   C7_increasing_offsets (poolAfter 1000 0 []) 10 4 0 10
    (by decide) (by decide) (by decide) (by decide) (by decide) (by decide) (by decide)⟩

/-! ## C8: requests larger than the pool -/

/-- C8 (as stated) fails in both parts.  From the cursor `0xFFE00000` (reached by
one call) the oversized request `C + 1` does not wrap: it returns
`base + 0xFFE00000` and leaves the cursor at `1`.  And from program start the
oversized request `0xFFFFFFFF` is followed by a `Reserve(1)` that does not wrap:
it returns the pointer `base + 0xFFFFFFFF`, which is `base - 1` on 4 bytes, and
leaves the cursor at `0`. -/
theorem C8_counterexample :
    (UNIFORM_CIRCULAR_POOL_SIZE < 2097153
      ∧ (vglReserveUniformCircularPoolBuffer (poolAfter 1000 0 [4292870144]) 2097153).1
          = 1000 + 4292870144
      ∧ (vglReserveUniformCircularPoolBuffer
          (poolAfter 1000 0 [4292870144]) 2097153).2.1.unif_idx = 1)
    ∧ (UNIFORM_CIRCULAR_POOL_SIZE < 4294967295
      ∧ ¬ takesWrapBranch
          (vglReserveUniformCircularPoolBuffer (poolAfter 1000 0 []) 4294967295).2.1 1
      ∧ (vglReserveUniformCircularPoolBuffer
          (vglReserveUniformCircularPoolBuffer (poolAfter 1000 0 []) 4294967295).2.1 1).1
          = (1000 + 4294967295) % 2 ^ 32
      ∧ (vglReserveUniformCircularPoolBuffer
          (vglReserveUniformCircularPoolBuffer (poolAfter 1000 0 []) 4294967295).2.1 1).1
          = 999
      ∧ (vglReserveUniformCircularPoolBuffer
          (vglReserveUniformCircularPoolBuffer
            (poolAfter 1000 0 []) 4294967295).2.1 1).2.1.unif_idx = 0)
    ∧ ¬ (∀ (base framecount : Nat) (sizes : List Nat) (size : Nat),
          (∀ x ∈ sizes, x < 2 ^ 32) → size < 2 ^ 32 → UNIFORM_CIRCULAR_POOL_SIZE < size →
          (vglReserveUniformCircularPoolBuffer (poolAfter base framecount sizes) size).1 = base
            ∧ (vglReserveUniformCircularPoolBuffer
                (poolAfter base framecount sizes) size).2.1.unif_idx = size)
    ∧ ¬ (∀ (base framecount : Nat) (sizes : List Nat) (size size2 : Nat),
          (∀ x ∈ sizes, x < 2 ^ 32) → size < 2 ^ 32 → size2 < 2 ^ 32 →
          UNIFORM_CIRCULAR_POOL_SIZE < size →
          takesWrapBranch
            (vglReserveUniformCircularPoolBuffer (poolAfter base framecount sizes) size).2.1
            size2) := by
  refine ⟨by decide, by decide, ?_, ?_⟩
  · intro h
    have h1 := h 1000 0 [4292870144] 2097153 (by decide) (by decide) (by decide)
    revert h1
    decide
  · intro h
    have h1 := h 1000 0 [] 4294967295 1 (by decide) (by decide) (by decide) (by decide)
    revert h1
    decide

/-- C8 (amended): on a state reached from program start, a request larger than the
capacity whose sum with the cursor fits in 32 bits returns the base and sets the
cursor to the requested size; and every immediately following request whose sum
with that cursor fits in 32 bits takes the wrap branch: it returns the base and
sets the cursor to its own size. -/
theorem C8_oversized_request (base framecount : Nat) (sizes : List Nat) (size : Nat)
    (hbig : UNIFORM_CIRCULAR_POOL_SIZE < size)
    (hfit : (poolAfter base framecount sizes).unif_idx + size < 2 ^ 32) :
    (vglReserveUniformCircularPoolBuffer (poolAfter base framecount sizes) size).1 = base
    ∧ (vglReserveUniformCircularPoolBuffer
        (poolAfter base framecount sizes) size).2.1.unif_idx = size
    ∧ ∀ size2 : Nat, size + size2 < 2 ^ 32 →
        takesWrapBranch
          (vglReserveUniformCircularPoolBuffer (poolAfter base framecount sizes) size).2.1 size2
        ∧ (vglReserveUniformCircularPoolBuffer
            (vglReserveUniformCircularPoolBuffer
              (poolAfter base framecount sizes) size).2.1 size2).1 = base
        ∧ (vglReserveUniformCircularPoolBuffer
            (vglReserveUniformCircularPoolBuffer
              (poolAfter base framecount sizes) size).2.1 size2).2.1.unif_idx = size2 := by
  have hb := poolAfter_unif_pool base framecount sizes
  generalize poolAfter base framecount sizes = st at hb hfit ⊢
  have hw : takesWrapBranch st size := by
    unfold takesWrapBranch
    rw [Nat.mod_eq_of_lt hfit]
    omega
  rw [reserve_wrap st size hw]
  refine ⟨hb, rfl, ?_⟩
  intro size2 hfit2
  have hw2 : takesWrapBranch
      ({ st with last_frame_swap := st.vgl_debugger_framecount, unif_idx := size } : State)
      size2 := by
    unfold takesWrapBranch
    show (size + size2) % 2 ^ 32 ≥ UNIFORM_CIRCULAR_POOL_SIZE
    rw [Nat.mod_eq_of_lt hfit2]
    omega
  refine ⟨hw2, ?_⟩
  rw [reserve_wrap _ size2 hw2]
  exact ⟨hb, rfl⟩

/-- Witness of `C8_oversized_request`: a request of 3 MiB after two small
reservations, followed by a request of 16 bytes. -/
theorem C8_oversized_request_witness :
    (vglReserveUniformCircularPoolBuffer (poolAfter 1000 0 [10, 4]) 3145728).1 = 1000
    ∧ (vglReserveUniformCircularPoolBuffer (poolAfter 1000 0 [10, 4]) 3145728).2.1.unif_idx
        = 3145728
    ∧ (vglReserveUniformCircularPoolBuffer
        (vglReserveUniformCircularPoolBuffer (poolAfter 1000 0 [10, 4]) 3145728).2.1 16).1
        = 1000 :=
  ⟨(C8_oversized_request 1000 0 [10, 4] 3145728 (by decide) (by decide)).1,
   (C8_oversized_request 1000 0 [10, 4] 3145728 (by decide) (by decide)).2.1,
   ((C8_oversized_request 1000 0 [10, 4] 3145728 (by decide) (by decide)).2.2 16
      (by decide)).2.1⟩

/-! ## C9, C10: the stage binders -/

/-- C9: for a program whose default uniform buffer size is 0, both stage
reservations return 0, leave every variable (cursor, latch, both remembered
pointers) unchanged, emit no event (no bind call, no diagnostic) and leave the
caller's cell as it was. -/
theorem C9_zero_size_is_noop {SceGxmProgram : Type}
    (sceGxmProgramGetDefaultUniformBufferSize : SceGxmProgram → Nat)
    (s : State) (p : SceGxmProgram) (uniformBuffer : Nat)
    (hsize : sceGxmProgramGetDefaultUniformBufferSize p = 0) :
    vglReserveFragmentUniformBuffer sceGxmProgramGetDefaultUniformBufferSize s p uniformBuffer
        = { ret := 0, state := s, events := [], uniformBuffer := uniformBuffer }
    ∧ vglReserveVertexUniformBuffer sceGxmProgramGetDefaultUniformBufferSize s p uniformBuffer
        = { ret := 0, state := s, events := [], uniformBuffer := uniformBuffer } := by
  unfold vglReserveFragmentUniformBuffer vglReserveVertexUniformBuffer
  simp [hsize]

/-- Witness of `C9_zero_size_is_noop`: programs are identified with their sizes. -/
theorem C9_zero_size_is_noop_witness :
    vglReserveFragmentUniformBuffer (fun n : Nat => n) (poolAfter 1000 0 [10, 4]) 0 77
        = { ret := 0, state := poolAfter 1000 0 [10, 4], events := [], uniformBuffer := 77 }
    ∧ vglReserveVertexUniformBuffer (fun n : Nat => n) (poolAfter 1000 0 [10, 4]) 0 77
        = { ret := 0, state := poolAfter 1000 0 [10, 4], events := [], uniformBuffer := 77 } :=
  C9_zero_size_is_noop (fun n : Nat => n) (poolAfter 1000 0 [10, 4]) 0 77 rfl

/-- The events of a pool reservation are diagnostics only. -/
theorem reserve_events_are_logs (s : State) (size : Nat) :
    ∀ e ∈ (vglReserveUniformCircularPoolBuffer s size).2.2, e = Event.vgl_log := by
  rw [reserve_events]
  split <;> simp

/-- C10: for a program whose default uniform buffer size `size` is nonzero, a stage
reservation returns `size`; its effect on the pool is that of the one call
`vglReserveUniformCircularPoolBuffer size`; the pointer returned by that call is
stored in the remembered pointer of the stage (and the other stage is untouched),
is the argument of the single bind call, issued for that stage after the pool
call, and is written to the caller's cell. -/
theorem C10_nonzero_size_reserves_and_binds {SceGxmProgram : Type}
    (sceGxmProgramGetDefaultUniformBufferSize : SceGxmProgram → Nat)
    (s : State) (p : SceGxmProgram) (uniformBuffer size : Nat)
    (hsize : sceGxmProgramGetDefaultUniformBufferSize p = size) (hne : size ≠ 0) :
    ((vglReserveFragmentUniformBuffer sceGxmProgramGetDefaultUniformBufferSize s p
          uniformBuffer).ret = size
      ∧ (vglReserveFragmentUniformBuffer sceGxmProgramGetDefaultUniformBufferSize s p
          uniformBuffer).state
          = { (vglReserveUniformCircularPoolBuffer s size).2.1 with
              frag_buf := (vglReserveUniformCircularPoolBuffer s size).1 }
      ∧ (vglReserveFragmentUniformBuffer sceGxmProgramGetDefaultUniformBufferSize s p
          uniformBuffer).events
          = (vglReserveUniformCircularPoolBuffer s size).2.2
              ++ [Event.sceGxmSetFragmentDefaultUniformBuffer
                    (vglReserveUniformCircularPoolBuffer s size).1]
      ∧ (vglReserveFragmentUniformBuffer sceGxmProgramGetDefaultUniformBufferSize s p
          uniformBuffer).uniformBuffer = (vglReserveUniformCircularPoolBuffer s size).1)
    ∧ ((vglReserveVertexUniformBuffer sceGxmProgramGetDefaultUniformBufferSize s p
          uniformBuffer).ret = size
      ∧ (vglReserveVertexUniformBuffer sceGxmProgramGetDefaultUniformBufferSize s p
          uniformBuffer).state
          = { (vglReserveUniformCircularPoolBuffer s size).2.1 with
              vert_buf := (vglReserveUniformCircularPoolBuffer s size).1 }
      ∧ (vglReserveVertexUniformBuffer sceGxmProgramGetDefaultUniformBufferSize s p
          uniformBuffer).events
          = (vglReserveUniformCircularPoolBuffer s size).2.2
              ++ [Event.sceGxmSetVertexDefaultUniformBuffer
                    (vglReserveUniformCircularPoolBuffer s size).1]
      ∧ (vglReserveVertexUniformBuffer sceGxmProgramGetDefaultUniformBufferSize s p
          uniformBuffer).uniformBuffer = (vglReserveUniformCircularPoolBuffer s size).1)
    ∧ ∀ e ∈ (vglReserveUniformCircularPoolBuffer s size).2.2, e = Event.vgl_log := by
  subst hsize
  refine ⟨?_, ?_, reserve_events_are_logs s _⟩
  · simp [vglReserveFragmentUniformBuffer, hne]
  · simp [vglReserveVertexUniformBuffer, hne]

/-- Witness of `C10_nonzero_size_reserves_and_binds`: a program of 64 bytes after
two reservations; the fragment stage gets offset 14. -/
theorem C10_nonzero_size_reserves_and_binds_witness :
    (vglReserveFragmentUniformBuffer (fun n : Nat => n) (poolAfter 1000 0 [10, 4]) 64 77).ret
        = 64
    ∧ (vglReserveFragmentUniformBuffer (fun n : Nat => n) (poolAfter 1000 0 [10, 4]) 64
        77).uniformBuffer = (vglReserveUniformCircularPoolBuffer (poolAfter 1000 0 [10, 4]) 64).1 :=
  ⟨(C10_nonzero_size_reserves_and_binds (fun n : Nat => n) (poolAfter 1000 0 [10, 4]) 64 77 64
      rfl (by decide)).1.1,
   (C10_nonzero_size_reserves_and_binds (fun n : Nat => n) (poolAfter 1000 0 [10, 4]) 64 77 64
      rfl (by decide)).1.2.2.2⟩

/-! ## C11, C12, C13: the remembered pointers of the stages -/

theorem reserve_frag_buf (s : State) (size : Nat) :
    (vglReserveUniformCircularPoolBuffer s size).2.1.frag_buf = s.frag_buf := by
  unfold vglReserveUniformCircularPoolBuffer
  split <;> rfl

theorem reserve_vert_buf (s : State) (size : Nat) :
    (vglReserveUniformCircularPoolBuffer s size).2.1.vert_buf = s.vert_buf := by
  unfold vglReserveUniformCircularPoolBuffer
  split <;> rfl

/-- With a non-null base of a pool that lies in the address space, the pointer
returned by a reservation whose 32-bit sum does not overflow is not null. -/
theorem reserve_ptr_ne_zero (s : State) (size : Nat) (h : s.unif_pool ≠ 0)
    (hpool : s.unif_pool + UNIFORM_CIRCULAR_POOL_SIZE ≤ 2 ^ 32)
    (hfit : s.unif_idx + size < 2 ^ 32) :
    (vglReserveUniformCircularPoolBuffer s size).1 ≠ 0 := by
  by_cases hw : takesWrapBranch s size
  · rw [reserve_wrap s size hw]
    exact h
  · rw [reserve_no_wrap s size hw]
    unfold takesWrapBranch at hw
    unfold UNIFORM_CIRCULAR_POOL_SIZE at *
    show (s.unif_pool + s.unif_idx) % 2 ^ 32 ≠ 0
    omega

theorem step_unif_pool {SceGxmProgram : Type} (getSize : SceGxmProgram → Nat)
    (s : State) (op : Op SceGxmProgram) :
    (step getSize s op).1.unif_pool = s.unif_pool := by
  cases op with
  | reservePool size => exact reserve_unif_pool s size
  | frame framecount => rfl
  | restoreFragment =>
    simp only [step, vglRestoreFragmentUniformBuffer]
    split <;> rfl
  | restoreVertex =>
    simp only [step, vglRestoreVertexUniformBuffer]
    split <;> rfl
  | reserveFragment p uniformBuffer =>
    simp only [step, vglReserveFragmentUniformBuffer]
    split
    · exact reserve_unif_pool s _
    · rfl
  | reserveVertex p uniformBuffer =>
    simp only [step, vglReserveVertexUniformBuffer]
    split
    · exact reserve_unif_pool s _
    · rfl

/-- The effect of one operation on `frag_buf`: a fragment reservation of nonzero
size stores the pointer of its pool call, every other operation keeps it. -/
theorem step_frag_buf {SceGxmProgram : Type} (getSize : SceGxmProgram → Nat)
    (s : State) (op : Op SceGxmProgram) :
    (∀ p uniformBuffer, op = Op.reserveFragment p uniformBuffer → getSize p ≠ 0 →
        (step getSize s op).1.frag_buf
          = (vglReserveUniformCircularPoolBuffer s (getSize p)).1)
    ∧ ((∀ p uniformBuffer, op = Op.reserveFragment p uniformBuffer → getSize p = 0) →
        (step getSize s op).1.frag_buf = s.frag_buf) := by
  cases op with
  | reservePool size =>
    exact ⟨(fun _ _ h => by cases h), fun _ => reserve_frag_buf s size⟩
  | frame framecount =>
    exact ⟨(fun _ _ h => by cases h), fun _ => rfl⟩
  | restoreFragment =>
    refine ⟨(fun _ _ h => by cases h), fun _ => ?_⟩
    simp only [step, vglRestoreFragmentUniformBuffer]
    split <;> rfl
  | restoreVertex =>
    refine ⟨(fun _ _ h => by cases h), fun _ => ?_⟩
    simp only [step, vglRestoreVertexUniformBuffer]
    split <;> rfl
  | reserveFragment q ub =>
    refine ⟨fun p uniformBuffer h hne => ?_, fun h => ?_⟩
    · cases h
      simp [step, vglReserveFragmentUniformBuffer, hne]
    · have h0 := h q ub rfl
      simp [step, vglReserveFragmentUniformBuffer, h0]
  | reserveVertex q ub =>
    refine ⟨(fun _ _ h => by cases h), fun _ => ?_⟩
    simp only [step, vglReserveVertexUniformBuffer]
    split
    · exact reserve_frag_buf s _
    · rfl

/-- The effect of one operation on `vert_buf`, as `step_frag_buf`. -/
theorem step_vert_buf {SceGxmProgram : Type} (getSize : SceGxmProgram → Nat)
    (s : State) (op : Op SceGxmProgram) :
    (∀ p uniformBuffer, op = Op.reserveVertex p uniformBuffer → getSize p ≠ 0 →
        (step getSize s op).1.vert_buf
          = (vglReserveUniformCircularPoolBuffer s (getSize p)).1)
    ∧ ((∀ p uniformBuffer, op = Op.reserveVertex p uniformBuffer → getSize p = 0) →
        (step getSize s op).1.vert_buf = s.vert_buf) := by
  cases op with
  | reservePool size =>
    exact ⟨(fun _ _ h => by cases h), fun _ => reserve_vert_buf s size⟩
  | frame framecount =>
    exact ⟨(fun _ _ h => by cases h), fun _ => rfl⟩
  | restoreFragment =>
    refine ⟨(fun _ _ h => by cases h), fun _ => ?_⟩
    simp only [step, vglRestoreFragmentUniformBuffer]
    split <;> rfl
  | restoreVertex =>
    refine ⟨(fun _ _ h => by cases h), fun _ => ?_⟩
    simp only [step, vglRestoreVertexUniformBuffer]
    split <;> rfl
  | reserveFragment q ub =>
    refine ⟨(fun _ _ h => by cases h), fun _ => ?_⟩
    simp only [step, vglReserveFragmentUniformBuffer]
    split
    · exact reserve_vert_buf s _
    · rfl
  | reserveVertex q ub =>
    refine ⟨fun p uniformBuffer h hne => ?_, fun h => ?_⟩
    · cases h
      simp [step, vglReserveVertexUniformBuffer, hne]
    · have h0 := h q ub rfl
      simp [step, vglReserveVertexUniformBuffer, h0]

theorem run_frag_buf_keep {SceGxmProgram : Type} (getSize : SceGxmProgram → Nat)
    (ops : List (Op SceGxmProgram)) (s : State)
    (h : ∀ p uniformBuffer, Op.reserveFragment p uniformBuffer ∈ ops → getSize p = 0) :
    (run getSize s ops).1.frag_buf = s.frag_buf := by
  induction ops generalizing s with
  | nil => rfl
  | cons op rest ih =>
    simp only [run]
    rw [ih _ (fun p ub hm => h p ub (List.mem_cons_of_mem _ hm))]
    exact (step_frag_buf getSize s op).2
      (fun p ub e => h p ub (e ▸ List.mem_cons_self _ _))

theorem run_vert_buf_keep {SceGxmProgram : Type} (getSize : SceGxmProgram → Nat)
    (ops : List (Op SceGxmProgram)) (s : State)
    (h : ∀ p uniformBuffer, Op.reserveVertex p uniformBuffer ∈ ops → getSize p = 0) :
    (run getSize s ops).1.vert_buf = s.vert_buf := by
  induction ops generalizing s with
  | nil => rfl
  | cons op rest ih =>
    simp only [run]
    rw [ih _ (fun p ub hm => h p ub (List.mem_cons_of_mem _ hm))]
    exact (step_vert_buf getSize s op).2
      (fun p ub e => h p ub (e ▸ List.mem_cons_self _ _))

theorem fitsIn32_append {SceGxmProgram : Type} (getSize : SceGxmProgram → Nat)
    (xs ys : List (Op SceGxmProgram)) (s : State) (h : fitsIn32 getSize s (xs ++ ys)) :
    fitsIn32 getSize s xs := by
  induction xs generalizing s with
  | nil => trivial
  | cons op rest ih => exact ⟨h.1, ih _ h.2⟩

theorem run_frag_buf_bound {SceGxmProgram : Type} (getSize : SceGxmProgram → Nat)
    (ops : List (Op SceGxmProgram)) (s : State) (hbase : s.unif_pool ≠ 0)
    (hpool : s.unif_pool + UNIFORM_CIRCULAR_POOL_SIZE ≤ 2 ^ 32)
    (hfit : fitsIn32 getSize s ops) :
    (run getSize s ops).1.frag_buf ≠ 0 ↔
      (s.frag_buf ≠ 0
        ∨ ∃ p uniformBuffer, Op.reserveFragment p uniformBuffer ∈ ops ∧ getSize p ≠ 0) := by
  induction ops generalizing s with
  | nil => simp [run]
  | cons op rest ih =>
    simp only [run]
    rw [ih _ (by rw [step_unif_pool]; exact hbase) (by rw [step_unif_pool]; exact hpool)
      hfit.2]
    by_cases hop : ∃ p ub, op = Op.reserveFragment p ub ∧ getSize p ≠ 0
    · obtain ⟨p, ub, e, hne⟩ := hop
      have hf := (step_frag_buf getSize s op).1 p ub e hne
      have hnz : (step getSize s op).1.frag_buf ≠ 0 := by
        rw [hf]
        exact reserve_ptr_ne_zero s _ hbase hpool
          (by
            have h1 := hfit.1
            rw [e] at h1
            exact h1)
      constructor
      · intro _
        exact Or.inr ⟨p, ub, e ▸ List.mem_cons_self _ _, hne⟩
      · intro _
        exact Or.inl hnz
    · have hkeep : (step getSize s op).1.frag_buf = s.frag_buf := by
        apply (step_frag_buf getSize s op).2
        intro p ub e
        by_contra hne
        exact hop ⟨p, ub, e, hne⟩
      rw [hkeep]
      constructor
      · rintro (h | ⟨p, ub, hm, hne⟩)
        · exact Or.inl h
        · exact Or.inr ⟨p, ub, List.mem_cons_of_mem _ hm, hne⟩
      · rintro (h | ⟨p, ub, hm, hne⟩)
        · exact Or.inl h
        · rcases List.mem_cons.1 hm with e | hm2
          · exact absurd ⟨p, ub, e.symm, hne⟩ hop
          · exact Or.inr ⟨p, ub, hm2, hne⟩

theorem run_vert_buf_bound {SceGxmProgram : Type} (getSize : SceGxmProgram → Nat)
    (ops : List (Op SceGxmProgram)) (s : State) (hbase : s.unif_pool ≠ 0)
    (hpool : s.unif_pool + UNIFORM_CIRCULAR_POOL_SIZE ≤ 2 ^ 32)
    (hfit : fitsIn32 getSize s ops) :
    (run getSize s ops).1.vert_buf ≠ 0 ↔
      (s.vert_buf ≠ 0
        ∨ ∃ p uniformBuffer, Op.reserveVertex p uniformBuffer ∈ ops ∧ getSize p ≠ 0) := by
  induction ops generalizing s with
  | nil => simp [run]
  | cons op rest ih =>
    simp only [run]
    rw [ih _ (by rw [step_unif_pool]; exact hbase) (by rw [step_unif_pool]; exact hpool)
      hfit.2]
    by_cases hop : ∃ p ub, op = Op.reserveVertex p ub ∧ getSize p ≠ 0
    · obtain ⟨p, ub, e, hne⟩ := hop
      have hf := (step_vert_buf getSize s op).1 p ub e hne
      have hnz : (step getSize s op).1.vert_buf ≠ 0 := by
        rw [hf]
        exact reserve_ptr_ne_zero s _ hbase hpool
          (by
            have h1 := hfit.1
            rw [e] at h1
            exact h1)
      constructor
      · intro _
        exact Or.inr ⟨p, ub, e ▸ List.mem_cons_self _ _, hne⟩
      · intro _
        exact Or.inl hnz
    · have hkeep : (step getSize s op).1.vert_buf = s.vert_buf := by
        apply (step_vert_buf getSize s op).2
        intro p ub e
        by_contra hne
        exact hop ⟨p, ub, e, hne⟩
      rw [hkeep]
      constructor
      · rintro (h | ⟨p, ub, hm, hne⟩)
        · exact Or.inl h
        · exact Or.inr ⟨p, ub, List.mem_cons_of_mem _ hm, hne⟩
      · rintro (h | ⟨p, ub, hm, hne⟩)
        · exact Or.inl h
        · rcases List.mem_cons.1 hm with e | hm2
          · exact absurd ⟨p, ub, e.symm, hne⟩ hop
          · exact Or.inr ⟨p, ub, hm2, hne⟩

/-- C11: after any run from program start (pool operations, frame changes, restores
and reservations of either stage) that contains no fragment reservation of nonzero
size, `vglRestoreFragmentUniformBuffer` emits no event, so no bind call; likewise
for the vertex stage.  In every state at all, neither restore function issues a
bind call with the null pointer. -/
theorem C11_restore_before_bind {SceGxmProgram : Type}
    (sceGxmProgramGetDefaultUniformBufferSize : SceGxmProgram → Nat)
    (base f0 : Nat) (ops : List (Op SceGxmProgram)) :
    ((∀ p uniformBuffer, Op.reserveFragment p uniformBuffer ∈ ops →
          sceGxmProgramGetDefaultUniformBufferSize p = 0) →
        (vglRestoreFragmentUniformBuffer
          (run sceGxmProgramGetDefaultUniformBufferSize
            (vglSetupUniformCircularPool (initialState f0) base) ops).1).2 = [])
    ∧ ((∀ p uniformBuffer, Op.reserveVertex p uniformBuffer ∈ ops →
          sceGxmProgramGetDefaultUniformBufferSize p = 0) →
        (vglRestoreVertexUniformBuffer
          (run sceGxmProgramGetDefaultUniformBufferSize
            (vglSetupUniformCircularPool (initialState f0) base) ops).1).2 = [])
    ∧ (∀ s : State,
        Event.sceGxmSetFragmentDefaultUniformBuffer 0 ∉ (vglRestoreFragmentUniformBuffer s).2
        ∧ Event.sceGxmSetVertexDefaultUniformBuffer 0 ∉ (vglRestoreVertexUniformBuffer s).2) := by
  refine ⟨fun h => ?_, fun h => ?_, fun s => ⟨?_, ?_⟩⟩
  · have hz := run_frag_buf_keep sceGxmProgramGetDefaultUniformBufferSize ops
      (vglSetupUniformCircularPool (initialState f0) base) h
    have hz0 : (run sceGxmProgramGetDefaultUniformBufferSize
        (vglSetupUniformCircularPool (initialState f0) base) ops).1.frag_buf = 0 := hz
    simp [vglRestoreFragmentUniformBuffer, hz0]
  · have hz := run_vert_buf_keep sceGxmProgramGetDefaultUniformBufferSize ops
      (vglSetupUniformCircularPool (initialState f0) base) h
    have hz0 : (run sceGxmProgramGetDefaultUniformBufferSize
        (vglSetupUniformCircularPool (initialState f0) base) ops).1.vert_buf = 0 := hz
    simp [vglRestoreVertexUniformBuffer, hz0]
  · unfold vglRestoreFragmentUniformBuffer
    by_cases h : s.frag_buf = 0
    · simp [h]
    · simp only [ne_eq, h, not_false_eq_true, if_true, List.mem_singleton]
      intro e
      injection e with e1
      exact h e1.symm
  · unfold vglRestoreVertexUniformBuffer
    by_cases h : s.vert_buf = 0
    · simp [h]
    · simp only [ne_eq, h, not_false_eq_true, if_true, List.mem_singleton]
      intro e
      injection e with e1
      exact h e1.symm

/-- Witness of `C11_restore_before_bind`: programs are identified with their sizes;
the run reserves pool space, binds the vertex stage and queries a fragment program
of size 0, and the fragment restore that follows emits nothing. -/
theorem C11_restore_before_bind_witness :
    (vglRestoreFragmentUniformBuffer
      (run (fun n : Nat => n) (vglSetupUniformCircularPool (initialState 0) 1000)
        [Op.reservePool 10, Op.reserveVertex 64 0, Op.reserveFragment 0 0,
         Op.restoreVertex]).1).2 = [] :=
  (C11_restore_before_bind (fun n : Nat => n) 1000 0
    [Op.reservePool 10, Op.reserveVertex 64 0, Op.reserveFragment 0 0,
     Op.restoreVertex]).1
    (by
      intro p ub hm
      simp at hm
      exact hm.1)

/-- C13 (as stated) fails: with the non-null pool base `0x10000000`, the fragment
slot is bound by a reservation of `0xF0000000` bytes, and the next fragment
reservation, of `0x10000000` bytes, takes the non-wrap branch and stores the
pointer `0x10000000 + 0xF0000000`, which is `NULL` on 4 bytes: the slot is unset
again although the run contains fragment reservations of nonzero size. -/
theorem C13_counterexample :
    ((run (fun n : Nat => n) (vglSetupUniformCircularPool (initialState 0) 268435456)
        [Op.reserveFragment 4026531840 0]).1.frag_buf = 268435456
      ∧ (run (fun n : Nat => n) (vglSetupUniformCircularPool (initialState 0) 268435456)
          [Op.reserveFragment 4026531840 0, Op.reserveFragment 268435456 0]).1.frag_buf = 0)
    ∧ ¬ (∀ (base f0 : Nat) (ops : List (Op Nat)),
          base ≠ 0 → base + UNIFORM_CIRCULAR_POOL_SIZE ≤ 2 ^ 32 →
          (∀ op ∈ ops, requestedSize (fun n : Nat => n) op < 2 ^ 32) →
          ((run (fun n : Nat => n) (vglSetupUniformCircularPool (initialState f0) base)
              ops).1.frag_buf ≠ 0
            ↔ ∃ p uniformBuffer, Op.reserveFragment p uniformBuffer ∈ ops ∧ p ≠ 0)) := by
  refine ⟨by decide, ?_⟩
  intro h
  have h1 := (h 268435456 0 [Op.reserveFragment 4026531840 0, Op.reserveFragment 268435456 0]
    (by decide) (by decide)
    (by
      intro op hop
      simp only [List.mem_cons, List.mem_singleton, List.not_mem_nil, or_false] at hop
      rcases hop with e | e <;> subst e <;> decide)).2
    ⟨268435456, 0, by simp, by decide⟩
  revert h1
  decide

/-- C13 (amended): when `vglSetupUniformCircularPool` stored a non-null base of a
pool that lies in the address space, then after any run of operations from
program start in which no 32-bit sum of cursor and requested size overflows, the
fragment slot is non-null exactly when the run contains a fragment reservation of
nonzero size, and the vertex slot exactly when it contains a vertex reservation of
nonzero size.  Applied to every prefix of a run: a slot is null up to the first
such reservation of its stage, is non-null right after it, and stays non-null
under every later operation. -/
theorem C13_slot_state_machine {SceGxmProgram : Type}
    (sceGxmProgramGetDefaultUniformBufferSize : SceGxmProgram → Nat)
    (base f0 : Nat) (ops more : List (Op SceGxmProgram)) (hbase : base ≠ 0)
    (hpool : base + UNIFORM_CIRCULAR_POOL_SIZE ≤ 2 ^ 32)
    (hfit : fitsIn32 sceGxmProgramGetDefaultUniformBufferSize
      (vglSetupUniformCircularPool (initialState f0) base) (ops ++ more)) :
    ((run sceGxmProgramGetDefaultUniformBufferSize
          (vglSetupUniformCircularPool (initialState f0) base) ops).1.frag_buf ≠ 0
        ↔ ∃ p uniformBuffer, Op.reserveFragment p uniformBuffer ∈ ops
            ∧ sceGxmProgramGetDefaultUniformBufferSize p ≠ 0)
    ∧ ((run sceGxmProgramGetDefaultUniformBufferSize
          (vglSetupUniformCircularPool (initialState f0) base) ops).1.vert_buf ≠ 0
        ↔ ∃ p uniformBuffer, Op.reserveVertex p uniformBuffer ∈ ops
            ∧ sceGxmProgramGetDefaultUniformBufferSize p ≠ 0)
    ∧ ((run sceGxmProgramGetDefaultUniformBufferSize
          (vglSetupUniformCircularPool (initialState f0) base) ops).1.frag_buf ≠ 0 →
        (run sceGxmProgramGetDefaultUniformBufferSize
          (vglSetupUniformCircularPool (initialState f0) base) (ops ++ more)).1.frag_buf ≠ 0)
    ∧ ((run sceGxmProgramGetDefaultUniformBufferSize
          (vglSetupUniformCircularPool (initialState f0) base) ops).1.vert_buf ≠ 0 →
        (run sceGxmProgramGetDefaultUniformBufferSize
          (vglSetupUniformCircularPool (initialState f0) base) (ops ++ more)).1.vert_buf ≠ 0) := by
  have hb0 : (vglSetupUniformCircularPool (initialState f0) base).unif_pool ≠ 0 := hbase
  have hp0 : (vglSetupUniformCircularPool (initialState f0) base).unif_pool
      + UNIFORM_CIRCULAR_POOL_SIZE ≤ 2 ^ 32 := hpool
  have hfit1 := fitsIn32_append sceGxmProgramGetDefaultUniformBufferSize ops more _ hfit
  have hf1 := run_frag_buf_bound sceGxmProgramGetDefaultUniformBufferSize ops
    (vglSetupUniformCircularPool (initialState f0) base) hb0 hp0 hfit1
  have hf2 := run_frag_buf_bound sceGxmProgramGetDefaultUniformBufferSize (ops ++ more)
    (vglSetupUniformCircularPool (initialState f0) base) hb0 hp0 hfit
  have hv1 := run_vert_buf_bound sceGxmProgramGetDefaultUniformBufferSize ops
    (vglSetupUniformCircularPool (initialState f0) base) hb0 hp0 hfit1
  have hv2 := run_vert_buf_bound sceGxmProgramGetDefaultUniformBufferSize (ops ++ more)
    (vglSetupUniformCircularPool (initialState f0) base) hb0 hp0 hfit
  have hf0 : ¬ (vglSetupUniformCircularPool (initialState f0) base).frag_buf ≠ 0 :=
    fun h => h rfl
  have hv0 : ¬ (vglSetupUniformCircularPool (initialState f0) base).vert_buf ≠ 0 :=
    fun h => h rfl
  refine ⟨?_, ?_, ?_, ?_⟩
  · rw [hf1]
    exact or_iff_right hf0
  · rw [hv1]
    exact or_iff_right hv0
  · rw [hf1, hf2]
    rintro (h | ⟨p, ub, hm, hne⟩)
    · exact absurd h hf0
    · exact Or.inr ⟨p, ub, List.mem_append_left _ hm, hne⟩
  · rw [hv1, hv2]
    rintro (h | ⟨p, ub, hm, hne⟩)
    · exact absurd h hv0
    · exact Or.inr ⟨p, ub, List.mem_append_left _ hm, hne⟩

/-- Witness of `C13_slot_state_machine`: programs are identified with their sizes;
the fragment slot is bound by the run, and stays bound under a later query of a
program of size 0 and a restore. -/
theorem C13_slot_state_machine_witness :
    (run (fun n : Nat => n) (vglSetupUniformCircularPool (initialState 0) 1000)
        ([Op.restoreFragment, Op.reserveVertex 64 0, Op.reserveFragment 32 0]
          ++ [Op.reserveFragment 0 0, Op.restoreFragment])).1.frag_buf ≠ 0 :=
  (C13_slot_state_machine (fun n : Nat => n) 1000 0
    [Op.restoreFragment, Op.reserveVertex 64 0, Op.reserveFragment 32 0]
    [Op.reserveFragment 0 0, Op.restoreFragment] (by decide) (by decide)
    ⟨by decide, by decide, by decide, by decide, by decide, trivial⟩).2.2.1 (by decide)

/-! ## C18: the two stages on one cursor -/

/-- C18 (as stated) fails in its last part: from the cursor `0xFFFFFFFF` (reached
by one pool call) a vertex reservation of 2 bytes and a fragment reservation of
`0xFFFFFFFF` bytes both take the non-wrap branch; the vertex pointer is `base - 1`
and the fragment pointer is `base + 1`, the vertex pointer plus 2, but the two
buffers are not disjoint: the first byte of the vertex buffer is a byte of the
fragment buffer, which wraps around the 4-byte address space. -/
theorem C18_counterexample :
    (¬ takesWrapBranch (poolAfter 1000 0 [4294967295]) 2
      ∧ ¬ takesWrapBranch
          (vglReserveVertexUniformBuffer (fun n : Nat => n)
            (poolAfter 1000 0 [4294967295]) 2 0).state 4294967295
      ∧ (vglReserveVertexUniformBuffer (fun n : Nat => n)
          (poolAfter 1000 0 [4294967295]) 2 0).uniformBuffer = 999
      ∧ (vglReserveFragmentUniformBuffer (fun n : Nat => n)
          (vglReserveVertexUniformBuffer (fun n : Nat => n)
            (poolAfter 1000 0 [4294967295]) 2 0).state
          4294967295 0).uniformBuffer = 1001
      ∧ (999 + 0) % 2 ^ 32 = (1001 + 4294967294) % 2 ^ 32)
    ∧ ¬ (∀ (s : State) (s1 s2 : Nat),
          s.unif_pool < 2 ^ 32 → s.unif_idx < 2 ^ 32 → s1 < 2 ^ 32 → s2 < 2 ^ 32 →
          s1 ≠ 0 → s2 ≠ 0 →
          ¬ takesWrapBranch s s1 →
          ¬ takesWrapBranch
              (vglReserveVertexUniformBuffer (fun n : Nat => n) s s1 0).state s2 →
          ∀ k1 k2 : Nat, k1 < s1 → k2 < s2 →
            ((vglReserveVertexUniformBuffer (fun n : Nat => n) s s1 0).uniformBuffer + k1)
                % 2 ^ 32
              ≠ ((vglReserveFragmentUniformBuffer (fun n : Nat => n)
                    (vglReserveVertexUniformBuffer (fun n : Nat => n) s s1 0).state s2
                    0).uniformBuffer + k2) % 2 ^ 32) := by
  refine ⟨by decide, ?_⟩
  intro h
  have h1 := h (poolAfter 1000 0 [4294967295]) 2 4294967295
    (by decide) (by decide) (by decide) (by decide) (by decide) (by decide) (by decide)
    (by decide) 0 4294967294 (by decide) (by decide)
  revert h1
  decide

/-- C18 (amended): a fragment reservation never changes `vert_buf` and a vertex
reservation never changes `frag_buf`; and when a vertex reservation of nonzero
size `s1` is directly followed by a fragment reservation of nonzero size `s2`,
neither taking the wrap branch, the fragment pointer is the vertex pointer plus
`s1` as a 4-byte pointer sum; when moreover the sum of the cursor, `s1` and `s2`
fits in 32 bits, the two buffers have no byte in common, and for a pool that lies
in the address space the pointer sum does not wrap. -/
theorem C18_stage_isolation {SceGxmProgram : Type}
    (sceGxmProgramGetDefaultUniformBufferSize : SceGxmProgram → Nat)
    (s : State) (pv pf : SceGxmProgram) (ubv ubf : Nat) :
    (vglReserveFragmentUniformBuffer sceGxmProgramGetDefaultUniformBufferSize s pf
        ubf).state.vert_buf = s.vert_buf
    ∧ (vglReserveVertexUniformBuffer sceGxmProgramGetDefaultUniformBufferSize s pv
        ubv).state.frag_buf = s.frag_buf
    ∧ (sceGxmProgramGetDefaultUniformBufferSize pv ≠ 0 →
        sceGxmProgramGetDefaultUniformBufferSize pf ≠ 0 →
        ¬ takesWrapBranch s (sceGxmProgramGetDefaultUniformBufferSize pv) →
        ¬ takesWrapBranch
            (vglReserveVertexUniformBuffer sceGxmProgramGetDefaultUniformBufferSize s pv
              ubv).state
            (sceGxmProgramGetDefaultUniformBufferSize pf) →
        (vglReserveFragmentUniformBuffer sceGxmProgramGetDefaultUniformBufferSize
            (vglReserveVertexUniformBuffer sceGxmProgramGetDefaultUniformBufferSize s pv
              ubv).state pf ubf).uniformBuffer
          = ((vglReserveVertexUniformBuffer sceGxmProgramGetDefaultUniformBufferSize s pv
              ubv).uniformBuffer + sceGxmProgramGetDefaultUniformBufferSize pv) % 2 ^ 32
        ∧ (s.unif_idx + sceGxmProgramGetDefaultUniformBufferSize pv
              + sceGxmProgramGetDefaultUniformBufferSize pf < 2 ^ 32 →
            (s.unif_pool + UNIFORM_CIRCULAR_POOL_SIZE ≤ 2 ^ 32 →
              (vglReserveFragmentUniformBuffer sceGxmProgramGetDefaultUniformBufferSize
                  (vglReserveVertexUniformBuffer sceGxmProgramGetDefaultUniformBufferSize s pv
                    ubv).state pf ubf).uniformBuffer
                = (vglReserveVertexUniformBuffer sceGxmProgramGetDefaultUniformBufferSize s pv
                    ubv).uniformBuffer + sceGxmProgramGetDefaultUniformBufferSize pv)
            ∧ ∀ k1 k2 : Nat,
                k1 < sceGxmProgramGetDefaultUniformBufferSize pv →
                k2 < sceGxmProgramGetDefaultUniformBufferSize pf →
                ((vglReserveVertexUniformBuffer sceGxmProgramGetDefaultUniformBufferSize s pv
                    ubv).uniformBuffer + k1) % 2 ^ 32
                  ≠ ((vglReserveFragmentUniformBuffer
                        sceGxmProgramGetDefaultUniformBufferSize
                        (vglReserveVertexUniformBuffer
                          sceGxmProgramGetDefaultUniformBufferSize s pv ubv).state pf
                        ubf).uniformBuffer + k2) % 2 ^ 32)) := by
  refine ⟨?_, ?_, ?_⟩
  · simp only [vglReserveFragmentUniformBuffer]
    split
    · exact reserve_vert_buf s _
    · rfl
  · simp only [vglReserveVertexUniformBuffer]
    split
    · exact reserve_frag_buf s _
    · rfl
  · intro hv hf h1 h2
    simp only [vglReserveVertexUniformBuffer, vglReserveFragmentUniformBuffer, hv, hf, ne_eq,
      not_false_eq_true, if_true] at h2 ⊢
    rw [reserve_no_wrap s _ h1] at h2 ⊢
    simp only at h2 ⊢
    rw [reserve_no_wrap _ _ h2]
    simp only
    unfold takesWrapBranch at h1 h2
    simp only at h2
    unfold UNIFORM_CIRCULAR_POOL_SIZE at *
    refine ⟨by omega, ?_⟩
    intro hfit
    refine ⟨?_, ?_⟩
    · intro hpool
      omega
    · intro k1 k2 hk1 hk2
      omega

/-- Witness of `C18_stage_isolation`: a vertex program of 64 bytes and a fragment
program of 32 bytes after two pool reservations. -/
theorem C18_stage_isolation_witness :
    (vglReserveFragmentUniformBuffer (fun n : Nat => n)
        (vglReserveVertexUniformBuffer (fun n : Nat => n) (poolAfter 1000 0 [10, 4]) 64
          0).state 32 0).uniformBuffer
      = (vglReserveVertexUniformBuffer (fun n : Nat => n) (poolAfter 1000 0 [10, 4]) 64
          0).uniformBuffer + 64 :=
  (((C18_stage_isolation (fun n : Nat => n) (poolAfter 1000 0 [10, 4]) 64 32 0 0).2.2
    (by decide) (by decide) (by decide) (by decide)).2 (by decide)).1 (by decide)

/-! ## C20: the diagnostic does not influence the allocation -/

theorem reserve_skip_agrees (s t : State) (size : Nat)
    (hpool : s.unif_pool = t.unif_pool) (hidx : s.unif_idx = t.unif_idx) :
    (vglReserveUniformCircularPoolBuffer s size).1
        = (vglReserveUniformCircularPoolBuffer_SKIP_ERROR_HANDLING t size).1
    ∧ (vglReserveUniformCircularPoolBuffer s size).2.1.unif_idx
        = (vglReserveUniformCircularPoolBuffer_SKIP_ERROR_HANDLING t size).2.1.unif_idx
    ∧ (vglReserveUniformCircularPoolBuffer s size).2.1.unif_pool
        = (vglReserveUniformCircularPoolBuffer_SKIP_ERROR_HANDLING t size).2.1.unif_pool := by
  unfold vglReserveUniformCircularPoolBuffer
    vglReserveUniformCircularPoolBuffer_SKIP_ERROR_HANDLING
  rw [hidx]
  split
  · exact ⟨hpool, rfl, hpool⟩
  · refine ⟨?_, rfl, hpool⟩
    show (s.unif_pool + t.unif_idx) % 2 ^ 32 = (t.unif_pool + t.unif_idx) % 2 ^ 32
    rw [hpool]

theorem reserveTrace_skip_agrees (calls : List (Nat × Nat)) (s t : State)
    (hpool : s.unif_pool = t.unif_pool) (hidx : s.unif_idx = t.unif_idx) :
    reserveTrace s calls = reserveTrace_SKIP_ERROR_HANDLING t (calls.map Prod.snd) := by
  induction calls generalizing s t with
  | nil => rfl
  | cons call rest ih =>
    have h := reserve_skip_agrees (setFramecount s call.1) t call.2 hpool hidx
    simp only [reserveTrace, List.map_cons, reserveTrace_SKIP_ERROR_HANDLING]
    rw [h.1, h.2.1, ih _ _ h.2.2 h.2.1]

/-- C20: two runs of reservations that start with the same pool base and the same
cursor and request the same sizes return, call by call, the same pointers and
leave the same cursors, whatever the two initial latches are and whatever values
the frame counter takes before each call in either run; and each run returns the
pointers and cursors of the build with `SKIP_ERROR_HANDLING`. -/
theorem C20_diagnostics_do_not_influence_allocation (s t : State)
    (calls1 calls2 : List (Nat × Nat))
    (hpool : s.unif_pool = t.unif_pool) (hidx : s.unif_idx = t.unif_idx)
    (hsizes : calls1.map Prod.snd = calls2.map Prod.snd) :
    reserveTrace s calls1 = reserveTrace t calls2
    ∧ reserveTrace s calls1 = reserveTrace_SKIP_ERROR_HANDLING s (calls1.map Prod.snd)
    ∧ reserveTrace t calls2 = reserveTrace_SKIP_ERROR_HANDLING t (calls2.map Prod.snd) := by
  refine ⟨?_, reserveTrace_skip_agrees calls1 s s rfl rfl,
    reserveTrace_skip_agrees calls2 t t rfl rfl⟩
  rw [reserveTrace_skip_agrees calls1 s s rfl rfl,
    reserveTrace_skip_agrees calls2 t s hpool.symm hidx.symm, hsizes]

/-- Witness of `C20_diagnostics_do_not_influence_allocation`: the same three sizes,
with two wraps, once under a constant frame counter from a zero latch and once
under a moving frame counter from the latch 7. -/
theorem C20_diagnostics_do_not_influence_allocation_witness :
    reserveTrace (poolAfter 1000 0 [10]) [(0, 2097152), (0, 5), (0, 2097152)]
      = reserveTrace
          { frag_buf := 3, vert_buf := 0, unif_pool := 1000, unif_idx := 10,
            last_frame_swap := 7, vgl_debugger_framecount := 9 }
          [(7, 2097152), (8, 5), (9, 2097152)] :=
  (C20_diagnostics_do_not_influence_allocation (poolAfter 1000 0 [10])
    { frag_buf := 3, vert_buf := 0, unif_pool := 1000, unif_idx := 10,
      last_frame_swap := 7, vgl_debugger_framecount := 9 }
    [(0, 2097152), (0, 5), (0, 2097152)] [(7, 2097152), (8, 5), (9, 2097152)]
    (by decide) (by decide) (by decide)).1

/-! ## C14, C19: `matrix4x4_invert` -/

theorem setEntry_apply {n : Nat} (a : Matrix (Fin n) (Fin n) ℚ) (i j : Fin n) (v : ℚ)
    (r c : Fin n) : setEntry a i j v r c = if r = i ∧ c = j then v else a r c := rfl

theorem matrix4x4_identity_eq_one (m : matrix4x4) : matrix4x4_identity m = 1 := by
  ext i j
  fin_cases i <;> fin_cases j <;>
    simp [matrix4x4_identity, sceClibMemset_zero, setEntry]

/-- The 2 by 2 minor expansion of lines 163 to 176 is the determinant. -/
theorem matrix4x4_invert_det_eq_det (m : matrix4x4) :
    matrix4x4_invert_det m = Matrix.det m := by
  unfold matrix4x4_invert_det
  have e1 : (Fin.succ (2 : Fin 3) : Fin 4) = 3 := rfl
  have e2 : (Fin.castSucc (2 : Fin 3) : Fin 4) = 2 := rfl
  have e3 : (Fin.succ (1 : Fin 2) : Fin 3) = 2 := rfl
  have e4 : (Fin.castSucc (1 : Fin 2) : Fin 3) = 1 := rfl
  have e5 : ((1 : Fin 3) < 2) := by decide
  have e6 : ((1 : Fin 4) < 3) := by decide
  simp [Matrix.det_succ_row_zero, Fin.sum_univ_succ, Fin.succAbove, e1, e2, e3, e4, e5, e6]
  ring

theorem matrix4x4_invert_ret (out m : matrix4x4) :
    (matrix4x4_invert out m).1 = if |matrix4x4_invert_det m| > 1 / 10000 then 1 else 0 := by
  unfold matrix4x4_invert matrix4x4_invert_det
  simp only []
  split <;> rfl

theorem matrix4x4_invert_out_of_zero (out m : matrix4x4)
    (h : ¬ |matrix4x4_invert_det m| > 1 / 10000) : (matrix4x4_invert out m).2 = out := by
  unfold matrix4x4_invert_det at h
  unfold matrix4x4_invert
  simp only [] at h ⊢
  rw [if_neg h]

theorem matrix4x4_invert_det_of_one (out m : matrix4x4) (h : (matrix4x4_invert out m).1 = 1) :
    |matrix4x4_invert_det m| > 1 / 10000 := by
  by_contra hn
  rw [matrix4x4_invert_ret, if_neg hn] at h
  exact absurd h (by decide)

set_option maxHeartbeats 1000000 in
/-- Apart from its first column, the product of `m` and the matrix written by a
successful `matrix4x4_invert` is the identity. -/
theorem matrix4x4_invert_mul_columns (out m : matrix4x4)
    (h : (matrix4x4_invert out m).1 = 1) (i j : Fin 4) (hj : j ≠ 0) :
    (m * (matrix4x4_invert out m).2) i j = (1 : matrix4x4) i j := by
  have hd := matrix4x4_invert_det_of_one out m h
  have hne : matrix4x4_invert_det m ≠ 0 := by
    intro h0
    rw [h0] at hd
    norm_num at hd
  unfold matrix4x4_invert_det at hd hne
  unfold matrix4x4_invert
  simp only [] at hd hne ⊢
  rw [if_pos hd]
  generalize hdd : (m 0 0 * m 1 1 - m 0 1 * m 1 0) * (m 2 2 * m 3 3 - m 2 3 * m 3 2)
      - (m 0 0 * m 1 2 - m 0 2 * m 1 0) * (m 2 1 * m 3 3 - m 2 3 * m 3 1)
      + (m 0 0 * m 1 3 - m 0 3 * m 1 0) * (m 2 1 * m 3 2 - m 2 2 * m 3 1)
      + (m 0 1 * m 1 2 - m 0 2 * m 1 1) * (m 2 0 * m 3 3 - m 2 3 * m 3 0)
      - (m 0 1 * m 1 3 - m 0 3 * m 1 1) * (m 2 0 * m 3 2 - m 2 2 * m 3 0)
      + (m 0 2 * m 1 3 - m 0 3 * m 1 2) * (m 2 0 * m 3 1 - m 2 1 * m 3 0) = d at hd hne ⊢
  simp only [Matrix.mul_apply, Fin.sum_univ_four, List.foldl_cons, List.foldl_nil]
  fin_cases j
  · exact absurd rfl hj
  all_goals
    fin_cases i <;>
      simp [setEntry_apply] <;>
      field_simp <;>
      subst hdd <;>
      ring

set_option maxHeartbeats 1000000 in
/-- Apart from its first row, the product of the matrix written by a successful
`matrix4x4_invert` and `m` is the identity. -/
theorem matrix4x4_invert_mul_rows (out m : matrix4x4)
    (h : (matrix4x4_invert out m).1 = 1) (i j : Fin 4) (hi : i ≠ 0) :
    ((matrix4x4_invert out m).2 * m) i j = (1 : matrix4x4) i j := by
  have hd := matrix4x4_invert_det_of_one out m h
  have hne : matrix4x4_invert_det m ≠ 0 := by
    intro h0
    rw [h0] at hd
    norm_num at hd
  unfold matrix4x4_invert_det at hd hne
  unfold matrix4x4_invert
  simp only [] at hd hne ⊢
  rw [if_pos hd]
  generalize hdd : (m 0 0 * m 1 1 - m 0 1 * m 1 0) * (m 2 2 * m 3 3 - m 2 3 * m 3 2)
      - (m 0 0 * m 1 2 - m 0 2 * m 1 0) * (m 2 1 * m 3 3 - m 2 3 * m 3 1)
      + (m 0 0 * m 1 3 - m 0 3 * m 1 0) * (m 2 1 * m 3 2 - m 2 2 * m 3 1)
      + (m 0 1 * m 1 2 - m 0 2 * m 1 1) * (m 2 0 * m 3 3 - m 2 3 * m 3 0)
      - (m 0 1 * m 1 3 - m 0 3 * m 1 1) * (m 2 0 * m 3 2 - m 2 2 * m 3 0)
      + (m 0 2 * m 1 3 - m 0 3 * m 1 2) * (m 2 0 * m 3 1 - m 2 1 * m 3 0) = d at hd hne ⊢
  simp only [Matrix.mul_apply, Fin.sum_univ_four, List.foldl_cons, List.foldl_nil]
  fin_cases i
  · exact absurd rfl hi
  all_goals
    fin_cases j <;>
      simp [setEntry_apply] <;>
      field_simp <;>
      subst hdd <;>
      ring

/-- C14 (the code at the failing input): for the identity matrix, as built by
`matrix4x4_identity`, `matrix4x4_invert` returns 1 and leaves `0` in `out[0][0]`,
so neither product of the input with the written matrix is the identity. -/
theorem C14_invert_of_identity_is_not_inverse (out : matrix4x4) :
    (matrix4x4_invert out (matrix4x4_identity out)).1 = 1
    ∧ (matrix4x4_invert out (matrix4x4_identity out)).2 0 0 = 0
    ∧ matrix4x4_identity out * (matrix4x4_invert out (matrix4x4_identity out)).2 ≠ 1
    ∧ (matrix4x4_invert out (matrix4x4_identity out)).2 * matrix4x4_identity out ≠ 1 := by
  have h1 : ((10000 : ℚ)⁻¹ < 1) := by norm_num
  rw [matrix4x4_identity_eq_one]
  have h00 : (matrix4x4_invert out 1).2 0 0 = 0 := by
    simp [matrix4x4_invert, setEntry, h1]
  refine ⟨?_, h00, ?_, ?_⟩
  · rw [matrix4x4_invert_ret, matrix4x4_invert_det_eq_det]
    simp [h1]
  · intro h
    have h2 := congrFun (congrFun h 0) 0
    rw [Matrix.one_mul, h00] at h2
    simp at h2
  · intro h
    have h2 := congrFun (congrFun h 0) 0
    rw [Matrix.mul_one, h00] at h2
    simp at h2

/-- C19: `matrix4x4_invert` returns 0 exactly when the absolute value of the
determinant of `m` is at most `1 / 10000`, and returns 1 otherwise; the value it
tests, the 2 by 2 minor expansion of lines 163 to 176, is the determinant of `m`;
and when it returns 0 the array `out` is as it was before the call. -/
theorem C19_invert_rejects_near_singular (out m : matrix4x4) :
    ((matrix4x4_invert out m).1 = 0 ↔ |Matrix.det m| ≤ 1 / 10000)
    ∧ ((matrix4x4_invert out m).1 = 1 ↔ ¬ |Matrix.det m| ≤ 1 / 10000)
    ∧ matrix4x4_invert_det m = Matrix.det m
    ∧ ((matrix4x4_invert out m).1 = 0 → (matrix4x4_invert out m).2 = out) := by
  have hr := matrix4x4_invert_ret out m
  have hdet := matrix4x4_invert_det_eq_det m
  rw [hdet] at hr
  refine ⟨?_, ?_, hdet, ?_⟩
  · rw [hr]
    by_cases h : |Matrix.det m| > 1 / 10000
    · rw [if_pos h]
      constructor
      · intro h0
        exact absurd h0 (by decide)
      · intro h1
        exact absurd h (not_lt.2 h1)
    · rw [if_neg h]
      exact ⟨fun _ => not_lt.1 h, fun _ => rfl⟩
  · rw [hr]
    by_cases h : |Matrix.det m| > 1 / 10000
    · rw [if_pos h]
      exact ⟨fun _ => not_le.2 h, fun _ => rfl⟩
    · rw [if_neg h]
      constructor
      · intro h0
        exact absurd h0 (by decide)
      · intro h1
        exact absurd (not_le.1 h1) h
  · intro h0
    apply matrix4x4_invert_out_of_zero
    intro hd
    rw [matrix4x4_invert_ret, if_pos hd] at h0
    exact absurd h0 (by decide)

/-- Witness of `C19_invert_rejects_near_singular`: the zero matrix is rejected and
`out` keeps its content. -/
theorem C19_invert_rejects_near_singular_witness :
    (matrix4x4_invert 1 0).2 = 1 :=
  (C19_invert_rejects_near_singular 1 0).2.2.2
    ((C19_invert_rejects_near_singular 1 0).1.2 (by simp))

/-! ## C15: transposition -/

/-- C15: each of the three transpose functions writes `out[i][j] = m[j][i]` for
all indices, whatever `out` held before, and transposing the result into another
array gives back `m`. -/
theorem C15_transpose_involution :
    (∀ (out out2 m : matrix2x2),
        (∀ i j, matrix2x2_transpose out m i j = m j i)
        ∧ matrix2x2_transpose out2 (matrix2x2_transpose out m) = m)
    ∧ (∀ (out out2 m : matrix3x3),
        (∀ i j, matrix3x3_transpose out m i j = m j i)
        ∧ matrix3x3_transpose out2 (matrix3x3_transpose out m) = m)
    ∧ (∀ (out out2 m : matrix4x4),
        (∀ i j, matrix4x4_transpose out m i j = m j i)
        ∧ matrix4x4_transpose out2 (matrix4x4_transpose out m) = m) := by
  have h2 : ∀ (out m : matrix2x2) i j, matrix2x2_transpose out m i j = m j i := by
    intro out m i j
    fin_cases i <;> fin_cases j <;> simp [matrix2x2_transpose, setEntry]
  have h3 : ∀ (out m : matrix3x3) i j, matrix3x3_transpose out m i j = m j i := by
    intro out m i j
    fin_cases i <;> fin_cases j <;> simp [matrix3x3_transpose, setEntry]
  have h4 : ∀ (out m : matrix4x4) i j, matrix4x4_transpose out m i j = m j i := by
    intro out m i j
    fin_cases i <;> fin_cases j <;> simp [matrix4x4_transpose, setEntry]
  refine ⟨fun out out2 m => ⟨h2 out m, ?_⟩, fun out out2 m => ⟨h3 out m, ?_⟩,
    fun out out2 m => ⟨h4 out m, ?_⟩⟩
  · ext i j
    rw [h2, h2]
  · ext i j
    rw [h3, h3]
  · ext i j
    rw [h4, h4]

/-! ## C16, C17: the vector transform -/

/-- C16: the transform of `(a, b, c, w)` by the matrix of
`matrix4x4_init_translation(x, y, z)` is `(a + w*x, b + w*y, c + w*z, w)`; a point
(`w = 1`) is moved by `(x, y, z)`, a direction (`w = 0`) is unchanged, and the
transform by the matrix of `matrix4x4_identity` is the vector itself. -/
theorem C16_translation_transform (u : vector4f) (m : matrix4x4) (x y z a b c w : ℚ) :
    vector4f_matrix4x4_mult u (matrix4x4_init_translation m x y z)
        { x := a, y := b, z := c, w := w }
      = { x := a + w * x, y := b + w * y, z := c + w * z, w := w }
    ∧ vector4f_matrix4x4_mult u (matrix4x4_init_translation m x y z)
        { x := a, y := b, z := c, w := 1 }
      = { x := a + x, y := b + y, z := c + z, w := 1 }
    ∧ vector4f_matrix4x4_mult u (matrix4x4_init_translation m x y z)
        { x := a, y := b, z := c, w := 0 }
      = { x := a, y := b, z := c, w := 0 }
    ∧ vector4f_matrix4x4_mult u (matrix4x4_identity m) { x := a, y := b, z := c, w := w }
      = { x := a, y := b, z := c, w := w } := by
  refine ⟨?_, ?_, ?_, ?_⟩ <;>
    simp [vector4f_matrix4x4_mult, matrix4x4_init_translation, matrix4x4_identity,
      sceClibMemset_zero, setEntry, mul_comm]

/-- C17: when `left ≠ right`, `bottom ≠ top` and `near ≠ far`, the transform by the
matrix of `matrix4x4_init_orthographic` sends `(left, bottom, -near, 1)` to
`(-1, -1, -1, 1)` and `(right, top, -far, 1)` to `(1, 1, 1, 1)`. -/
theorem C17_orthographic_unit_cube (u : vector4f) (m : matrix4x4)
    (left right bottom top near far : ℚ)
    (hx : left ≠ right) (hy : bottom ≠ top) (hz : near ≠ far) :
    vector4f_matrix4x4_mult u
        (matrix4x4_init_orthographic m left right bottom top near far)
        { x := left, y := bottom, z := -near, w := 1 }
      = { x := -1, y := -1, z := -1, w := 1 }
    ∧ vector4f_matrix4x4_mult u
        (matrix4x4_init_orthographic m left right bottom top near far)
        { x := right, y := top, z := -far, w := 1 }
      = { x := 1, y := 1, z := 1, w := 1 } := by
  have h1 : right - left ≠ 0 := sub_ne_zero.2 (Ne.symm hx)
  have h2 : top - bottom ≠ 0 := sub_ne_zero.2 (Ne.symm hy)
  have h3 : far - near ≠ 0 := sub_ne_zero.2 (Ne.symm hz)
  constructor
  · simp only [vector4f_matrix4x4_mult, matrix4x4_init_orthographic, sceClibMemset_zero,
      setEntry]
    simp
    refine ⟨?_, ?_, ?_⟩ <;> field_simp <;> ring
  · simp only [vector4f_matrix4x4_mult, matrix4x4_init_orthographic, sceClibMemset_zero,
      setEntry]
    simp
    refine ⟨?_, ?_, ?_⟩ <;> field_simp <;> ring

/-- Witness of `C17_orthographic_unit_cube`: the box `[0, 2] x [0, 2]` with the
depth range from 1 to 3. -/
theorem C17_orthographic_unit_cube_witness :
    vector4f_matrix4x4_mult { x := 0, y := 0, z := 0, w := 0 }
        (matrix4x4_init_orthographic 0 0 2 0 2 1 3)
        { x := 0, y := 0, z := -1, w := 1 }
      = { x := -1, y := -1, z := -1, w := 1 } :=
  (C17_orthographic_unit_cube { x := 0, y := 0, z := 0, w := 0 } 0 0 2 0 2 1 3
    (by norm_num) (by norm_num) (by norm_num)).1

end VitaGL
